import Mathlib

/-!
Shallow embedding of the UptimeMonitor health-check engine (`app.py`):
the per-site check protocol `check_site` (TLS expiry inspection, HTTP
probe with content validation, status classification, persistence,
alert dispatch), the alert transport `send_telegram`, the background
`polling_loop`, and the registry operations `toggle` and `delete`.

External effects (sockets, HTTP, sqlite, clock) are modelled by explicit
outcome oracles (`SslOutcome`, `HttpOutcome`, a `dbOk` flag, timestamps)
and an explicit trace of emitted `Effect`s, so that every function is
executable and the control flow of the Python source is preserved.

Python string primitives (`startswith`, `in`, `strip`, `split`) are
modelled over `List Char` by structurally recursive functions with the
same semantics, so concrete runs reduce in the kernel.
-/

namespace UptimeMonitor

/-! Python string primitives -/

/-- Python `s.startswith(pre)`. -/
def pyStartsWith (s pre : String) : Bool := pre.data.isPrefixOf s.data

def containsAux (needle : List Char) : List Char → Bool
  | [] => needle.isEmpty
  | c :: rest => needle.isPrefixOf (c :: rest) || containsAux needle rest

/-- Python `needle in hay` (substring containment). -/
def pyContains (hay needle : String) : Bool := containsAux needle.data hay.data

/-- Python `s.strip()`. -/
def pyStrip (s : String) : String :=
  String.mk (((s.data.dropWhile Char.isWhitespace).reverse.dropWhile Char.isWhitespace).reverse)

def pySplitAux (sep : List Char) : Nat → List Char → List Char → List (List Char)
  | _, [], acc => [acc.reverse]
  | 0, l, acc => [acc.reverse ++ l]
  | Nat.succ fuel, c :: rest, acc =>
    if sep.isPrefixOf (c :: rest) then
      acc.reverse :: pySplitAux sep fuel ((c :: rest).drop sep.length) []
    else pySplitAux sep fuel rest (c :: acc)

/-- Python `s.split(sep)` for a non-empty separator. -/
def pySplit (s sep : String) : List String :=
  (pySplitAux sep.data s.data.length s.data []).map String.mk

/-- Python truthiness of an optional string (`None` and `""` are falsy). -/
def pyTruthy : Option String → Bool
  | none => false
  | some s => s ≠ ""

/-- Python `str(x)` for an optional string (f-string interpolation of `None`). -/
def pyStr : Option String → String
  | none => "None"
  | some s => s

/-! Data model: configuration, registry rows, log records, oracles, effects -/

/-- Environment configuration: `TELEGRAM_TOKEN` and `TELEGRAM_CHAT_ID`. -/
structure Config where
  telegram_token : Option String
  telegram_chat_id : Option String
deriving DecidableEq

/-- One row of the `sites` table. -/
structure Site where
  id : Nat
  url : String
  check_interval : Nat
  expected_text : Option String
  enabled : Nat
deriving DecidableEq

/-- The tuple `(id, url, check_interval, expected_text)` selected by the
polling loop and passed to `check_site`. -/
structure SiteRow where
  id : Nat
  url : String
  check_interval : Nat
  expected_text : Option String
deriving DecidableEq

/-- One row of the `logs` table (a ProbeResult). -/
structure LogRecord where
  site_id : Nat
  status : Nat
  response_time : Option Nat
  timestamp : String
deriving DecidableEq

/-- Outcome of the TLS inspection attempt for one host: either any
exception (DNS, connect, handshake, parse), or a successfully parsed
peer certificate with its `notAfter` date (in whole days on a common
axis with `nowDay`) and its formatted expiry date. -/
inductive SslOutcome where
  | fault (err : String)
  | cert (notAfterDay : Int) (expiryFmt : String)
deriving DecidableEq

/-- Outcome of `requests.get`: either an exception escaping the `try`
block, or a response with a status code and body text. -/
inductive HttpOutcome where
  | fault
  | response (status_code : Nat) (body : String)
deriving DecidableEq

/-- The external world as observed by one `check_site` call. -/
structure ProbeEnv where
  ssl : SslOutcome
  http : HttpOutcome
  elapsed : Nat
  dbOk : Bool
  nowDay : Int
  nowIso : String
  nowFmt : String
  postStatus : Option Nat
deriving DecidableEq

/-- Externally visible actions, in program order. -/
inductive Effect where
  | tlsConnect (hostname : String) (port : Nat)
  | httpGet (url : String)
  | telegramPost (url : String) (message : String)
  | logLocal (msg : String)
  | dbInsert (record : LogRecord)
  | sleep (seconds : Nat)
deriving DecidableEq

/-! The TLS inspector -/

/-- Python default value of the `port` parameter of `check_ssl_expiry`. -/
def sslDefaultPort : Nat := 443

/-- Embeds `check_ssl_expiry(hostname, port)`: attempt a TLS connection;
on success compute `days_left = (expiry_date - datetime.utcnow()).days`
and return it with the formatted expiry date; on any exception return
`(none, error_description)`. -/
def check_ssl_expiry (hostname : String) (port : Nat) (nowDay : Int) (o : SslOutcome) :
    (Option Int × String) × List Effect :=
  ((match o with
    | SslOutcome.fault e => (none, e)
    | SslOutcome.cert d fmt => (some (d - nowDay), fmt)),
   [Effect.tlsConnect hostname port])

/-- Embeds `url.split("://")[1].split("/")[0].split(":")[0]`. -/
def extract_hostname (url : String) : String :=
  ((pySplit ((pySplit ((pySplit url "://").getD 1 "") "/").getD 0 "") ":").getD 0 "")

/-! The alert dispatcher -/

/-- The messaging endpoint URL built by `send_telegram` (note: the token
is interpolated even when it is `None`). -/
def tgApiUrl (cfg : Config) : String :=
  "https://api.telegram.org/bot" ++ pyStr cfg.telegram_token ++ "/sendMessage"

/-- The local log produced by `send_telegram` after the POST attempt:
success, a non-200 error report, or the caught exception. -/
def sendLog : Option Nat → List Effect
  | some c =>
    if c = 200 then [Effect.logLocal "✅ Notification sent to Telegram"]
    else [Effect.logLocal ("❌ Error: " ++ toString c)]
  | none => [Effect.logLocal "⚠️ Telegram error"]

/-- Embeds `send_telegram(message)`: always attempts the HTTP POST to the
messaging endpoint, then logs the outcome locally; exceptions are caught. -/
def send_telegram (cfg : Config) (postStatus : Option Nat) (message : String) : List Effect :=
  Effect.telegramPost (tgApiUrl cfg) message :: sendLog postStatus

/-! The per-site check `check_site` -/

/-- The SSL warning message sent when `days_left < 7`. -/
def sslAlertMessage (url : String) (days_left : Int) : String :=
  "⚠️ <b>SSL will expire soon!</b>\n\n🌐 <code>" ++ url ++ "</code>\n📅 Left: " ++
  toString days_left ++ " days"

/-- Embeds the SSL section of `check_site` (lines 89-96): when the URL is
HTTPS, inspect the certificate; on success build the `ssl_info` line and,
when fewer than 7 days remain, send the SSL warning via `send_telegram`
with no credential check. Returns `(ssl_info, effects)`. -/
def sslSection (cfg : Config) (env : ProbeEnv) (url : String) : Option String × List Effect :=
  if pyStartsWith url "https://" then
    let hostname := extract_hostname url
    let out := check_ssl_expiry hostname sslDefaultPort env.nowDay env.ssl
    match out.1.1 with
    | some d =>
      let info := "SSL: expires " ++ out.1.2 ++ " (" ++ toString d ++ " days left)"
      if d < 7 then
        (some info, out.2 ++ send_telegram cfg env.postStatus (sslAlertMessage url d))
      else (some info, out.2)
    | none => (none, out.2)
  else (none, [])

/-- Embeds the `try` block of `check_site` (lines 98-107): returns
`(response_time, status, status_code)`. On a request exception the
response time is `none` and the status is 0; otherwise the status is 1
exactly when the code is 200 and, if `expected_text` is set and
non-blank, it occurs in the body. -/
def httpSection (env : ProbeEnv) (expected_text : Option String) : Option Nat × Nat × Nat :=
  match env.http with
  | HttpOutcome.fault => (none, 0, 0)
  | HttpOutcome.response code body =>
    let content_ok :=
      match expected_text with
      | some t => if t ≠ "" ∧ pyStrip t ≠ "" then pyContains body t else true
      | none => true
    (some env.elapsed, if code == 200 && content_ok then 1 else 0, code)

/-- Embeds the down-reason selection of `check_site` (lines 119-124). -/
def downReason (response_time : Option Nat) (status_code : Nat) (expected_text : Option String) :
    String :=
  match response_time with
  | none => "❌ Not responding (timeout)"
  | some _ =>
    if status_code ≠ 200 then "⚠️ HTTP status: " ++ toString status_code
    else "🔍 Expected text \x27" ++ pyStr expected_text ++ "\x27 not found"

/-- Embeds the `SITE IS DOWN` message template of `check_site`
(lines 126-144). -/
def mkDownMessage (url cur : String) (response_time : Option Nat) (expected_text : Option String)
    (interval : Nat) (ssl_info : Option String) (reason : String) : String :=
  "🔴 <b>SITE IS DOWN</b>\n\n🌐 <b>Site:</b> <code>" ++ url ++
  "</code>\n🕒 <b>Time:</b> " ++ cur ++
  "\n⏱️ <b>Response:</b> " ++
  (match response_time with
   | some t => if t ≠ 0 then toString t ++ " s" else "—"
   | none => "—") ++
  "\n📝 <b>Expected text:</b> <code>" ++
  (match expected_text with
   | some t => if t ≠ "" then t else "—"
   | none => "—") ++
  "</code>\n🔄 <b>Interval:</b> " ++ toString interval ++ " s\n" ++
  (match ssl_info with
   | some s => "🔐 " ++ s
   | none => "") ++
  "\n\n📋 <b>Reason:</b>\n" ++ reason ++
  "\n\n🔧 <b>What to do?</b>\n➡️ Check the server\n➡️ Make sure the site is accessible" ++
  "\n\n📊 <b>Monitoring:</b>\n<a href=\"http://localhost:5000\">Open panel</a>\n"

/-- Embeds the alert branch of `check_site` (lines 117-149): when the
status is DOWN, build the message and either send it (credentials
configured) or log locally that Telegram is not configured. -/
def downSection (cfg : Config) (env : ProbeEnv) (site : SiteRow) (ssl_info : Option String)
    (response_time : Option Nat) (status status_code : Nat) : List Effect :=
  if status = 0 then
    let reason := downReason response_time status_code site.expected_text
    let message := mkDownMessage site.url env.nowFmt response_time site.expected_text
      site.check_interval ssl_info reason
    if pyTruthy cfg.telegram_token && pyTruthy cfg.telegram_chat_id then
      send_telegram cfg env.postStatus message
    else [Effect.logLocal "ℹ️ Telegram is not configured"]
  else []

/-- Result of a `check_site` call that returned normally. -/
structure CheckResult where
  status : Nat
  effects : List Effect
  appended : List LogRecord
deriving DecidableEq

/-- Embeds `check_site(site)`: SSL section, HTTP probe, one `INSERT INTO
logs`, then the alert branch. A persistence write failure raises out of
`check_site` (`Except.error`), carrying the effects already performed;
the log insert and the alert branch then never run. -/
def check_site (cfg : Config) (env : ProbeEnv) (site : SiteRow) :
    Except (List Effect) CheckResult :=
  let s := sslSection cfg env site.url
  let h := httpSection env site.expected_text
  let preEffs := s.2 ++ [Effect.httpGet site.url]
  if env.dbOk then
    let record : LogRecord := ⟨site.id, h.2.1, h.1, env.nowIso⟩
    Except.ok ⟨h.2.1,
      preEffs ++ [Effect.dbInsert record] ++
        downSection cfg env site s.1 h.1 h.2.1 h.2.2,
      [record]⟩
  else Except.error preEffs

/-! The polling loop -/

/-- State of the sqlite database: the `sites` and `logs` tables. -/
structure DB where
  sites : List Site
  logs : List LogRecord
deriving DecidableEq

/-- Embeds `SELECT id, url, check_interval, expected_text FROM sites
WHERE enabled = 1`. -/
def enabledRows (db : DB) : List SiteRow :=
  (db.sites.filter (fun s => s.enabled = 1)).map
    (fun s => ⟨s.id, s.url, s.check_interval, s.expected_text⟩)

def appendLogs (db : DB) (recs : List LogRecord) : DB := ⟨db.sites, db.logs ++ recs⟩

/-- Embeds the `for site in sites` body of `polling_loop` (lines 179-181):
probe each site in order, sleeping 1s between sites; an exception from
`check_site` stops the iteration (it propagates to the cycle-level
handler). Returns the database, the effect trace, and whether a fault
escaped. -/
def runSites (cfg : Config) (envOf : Nat → ProbeEnv) :
    List SiteRow → DB → DB × List Effect × Bool
  | [], db => (db, [], false)
  | s :: rest, db =>
    match check_site cfg (envOf s.id) s with
    | Except.error effs => (db, effs, true)
    | Except.ok res =>
      let out := runSites cfg envOf rest (appendLogs db res.appended)
      (out.1, res.effects ++ Effect.sleep 1 :: out.2.1, out.2.2)

/-- The `print` issued by the cycle-level exception handler. -/
def cycleErrMsg : String := "🚨 Error"

/-- Embeds one iteration of the `while True` loop of `polling_loop`
(lines 175-185): fetch the enabled sites and probe them in order; any
exception (from the fetch itself, modelled by `fetchOk = false`, or
escaping a `check_site`) is caught at the cycle boundary, logged, and
followed by the 10s pause; otherwise the 10s end-of-cycle pause runs. -/
def runCycle (cfg : Config) (envOf : Nat → ProbeEnv) (fetchOk : Bool) (db : DB) :
    DB × List Effect :=
  if fetchOk then
    let out := runSites cfg envOf (enabledRows db) db
    if out.2.2 then (out.1, out.2.1 ++ [Effect.logLocal cycleErrMsg, Effect.sleep 10])
    else (out.1, out.2.1 ++ [Effect.sleep 10])
  else (db, [Effect.logLocal cycleErrMsg, Effect.sleep 10])

/-- Runs `n` consecutive cycles of the polling loop (each with a
successful fetch), threading the database. -/
def runLoop (cfg : Config) (envOf : Nat → ProbeEnv) : Nat → DB → DB × List Effect
  | 0, db => (db, [])
  | Nat.succ n, db =>
    let out := runCycle cfg envOf true db
    let out2 := runLoop cfg envOf n out.1
    (out2.1, out.2 ++ out2.2)

/-! Registry operations -/

/-- Embeds the `/toggle/<site_id>` route: read the site, flip its
`enabled` flag by Python truthiness; the `logs` table is untouched. If
the site does not exist the route raises and the UPDATE never runs. -/
def toggle (db : DB) (site_id : Nat) : DB :=
  match db.sites.find? (fun s => s.id = site_id) with
  | none => db
  | some s =>
    let new_state : Nat := if s.enabled ≠ 0 then 0 else 1
    ⟨db.sites.map (fun t => if t.id = site_id then
        { t with enabled := new_state } else t), db.logs⟩

/-- Embeds the `/delete/<site_id>` route: delete the site row and all of
its log records. -/
def delete (db : DB) (site_id : Nat) : DB :=
  ⟨db.sites.filter (fun s => s.id ≠ site_id),
   db.logs.filter (fun l => l.site_id ≠ site_id)⟩

/-- All log records of one site, in append order. -/
def logsFor (db : DB) (site_id : Nat) : List LogRecord :=
  db.logs.filter (fun l => l.site_id = site_id)

/-! Trace observers -/

/-- URLs probed by HTTP GET, in order. -/
def probedUrls (effs : List Effect) : List String :=
  effs.filterMap (fun e => match e with
    | Effect.httpGet u => some u
    | _ => none)

/-- Number of HTTP POSTs attempted to the messaging endpoint. -/
def postCount (effs : List Effect) : Nat :=
  (effs.filter (fun e => match e with
    | Effect.telegramPost _ _ => true
    | _ => false)).length

/-- The fixed head of every SSL-expiry warning message. -/
def sslAlertHead : String := "⚠️ <b>SSL will expire soon!</b>"

/-- Number of SSL-expiry warning POSTs (identified by the fixed message
head of `sslAlertMessage`). -/
def sslAlertCount (effs : List Effect) : Nat :=
  (effs.filter (fun e => match e with
    | Effect.telegramPost _ m => pyStartsWith m sslAlertHead
    | _ => false)).length

/-- A site qualifies for the SSL-expiry warning in a given environment:
HTTPS URL, certificate inspection succeeds, and fewer than 7 days
remain. -/
def sslQualifies (env : ProbeEnv) (url : String) : Bool :=
  pyStartsWith url "https://" &&
  (match env.ssl with
   | SslOutcome.cert d _ => decide (d - env.nowDay < 7)
   | SslOutcome.fault _ => false)

/-- Alert events: messaging-endpoint POSTs plus the local fallback log
for an unconfigured transport. -/
def alertCount (effs : List Effect) : Nat :=
  postCount effs +
  (effs.filter (fun e => e = Effect.logLocal "ℹ️ Telegram is not configured")).length

/-- The probing/pausing skeleton of a trace: TLS connects, HTTP GETs and
sleeps, with message payloads and persistence dropped. -/
def probeSchedule (effs : List Effect) : List Effect :=
  effs.filter (fun e => match e with
    | Effect.tlsConnect _ _ => true
    | Effect.httpGet _ => true
    | Effect.sleep _ => true
    | _ => false)

/-- Durations of the sleeps of a trace, in order. -/
def sleepSeconds (effs : List Effect) : List Nat :=
  effs.filterMap (fun e => match e with
    | Effect.sleep n => some n
    | _ => none)

/-! General lemmas about `check_site` -/

/-- With a working persistence layer, `check_site` returns normally with
the status computed by the HTTP section and exactly one appended record. -/
lemma check_site_ok (cfg : Config) (env : ProbeEnv) (site : SiteRow)
    (hdb : env.dbOk = true) :
    check_site cfg env site = Except.ok
      ⟨(httpSection env site.expected_text).2.1,
       (sslSection cfg env site.url).2 ++ [Effect.httpGet site.url] ++
         [Effect.dbInsert ⟨site.id, (httpSection env site.expected_text).2.1,
            (httpSection env site.expected_text).1, env.nowIso⟩] ++
         downSection cfg env site (sslSection cfg env site.url).1
           (httpSection env site.expected_text).1
           (httpSection env site.expected_text).2.1
           (httpSection env site.expected_text).2.2,
       [⟨site.id, (httpSection env site.expected_text).2.1,
         (httpSection env site.expected_text).1, env.nowIso⟩]⟩ := by
  simp [check_site, hdb]

/-- With a failing persistence layer, `check_site` raises after the SSL
section and the HTTP GET. -/
lemma check_site_error (cfg : Config) (env : ProbeEnv) (site : SiteRow)
    (hdb : env.dbOk = false) :
    check_site cfg env site =
      Except.error ((sslSection cfg env site.url).2 ++ [Effect.httpGet site.url]) := by
  simp [check_site, hdb]

lemma pyStrip_empty : pyStrip "" = "" := by decide

/-- The status computed by the HTTP section is 1 exactly when the
response arrived with code 200 and the content check passed. -/
lemma httpSection_status_eq_one_iff (env : ProbeEnv) (et : Option String) :
    (httpSection env et).2.1 = 1 ↔
      ∃ code body, env.http = HttpOutcome.response code body ∧ code = 200 ∧
        (∀ t, et = some t → pyStrip t = "" ∨ pyContains body t = true) := by
  cases h : env.http with
  | fault => simp [httpSection, h]
  | response code body =>
    simp only [httpSection, h]
    cases et with
    | none =>
      constructor
      · intro hs
        refine ⟨code, body, rfl, ?_, by simp⟩
        by_contra hc
        simp [Nat.sub_self, show (code == 200) = false by simpa using hc] at hs
      · rintro ⟨c, b, heq, hc, -⟩
        cases heq
        simp [hc]
    | some t =>
      by_cases hblank : t ≠ "" ∧ pyStrip t ≠ ""
      · constructor
        · intro hs
          by_cases hcode : code = 200
          · refine ⟨code, body, rfl, hcode, ?_⟩
            intro t' ht'
            cases ht'
            by_cases hcont : pyContains body t = true
            · exact Or.inr hcont
            · simp [hblank, hcode, hcont] at hs
          · simp [show (code == 200) = false by simpa using hcode] at hs
        · rintro ⟨c, b, heq, hc, hcont⟩
          cases heq
          rcases hcont t rfl with hstrip | hcont
          · exact absurd hstrip hblank.2
          · simp [hblank, hc, hcont]
      · have hstrip : pyStrip t = "" := by
          rcases not_and_or.mp hblank with h1 | h2
          · have : t = "" := by simpa using h1
            simp [this, pyStrip_empty]
          · simpa using h2
        constructor
        · intro hs
          by_cases hcode : code = 200
          · exact ⟨code, body, rfl, hcode, fun t' ht' => by cases ht'; exact Or.inl hstrip⟩
          · simp [show (code == 200) = false by simpa using hcode] at hs
        · rintro ⟨c, b, heq, hc, -⟩
          cases heq
          simp [hblank, hc]

/-- The status computed by the HTTP section is 0 or 1. -/
lemma httpSection_status_cases (env : ProbeEnv) (et : Option String) :
    (httpSection env et).2.1 = 0 ∨ (httpSection env et).2.1 = 1 := by
  cases h : env.http with
  | fault => simp [httpSection, h]
  | response code body =>
    simp only [httpSection, h]
    split <;> simp

/-- Claim C1: for every probe in `check_site`, the recorded status is
UP (1) exactly when the HTTP GET returns with status code 200 and the
expected text is unset, blank, or a substring of the response body; in
every other outcome the recorded status is DOWN (0). -/
theorem c1_status_classification (cfg : Config) (env : ProbeEnv) (site : SiteRow)
    (hdb : env.dbOk = true) :
    ∃ res, check_site cfg env site = Except.ok res ∧
      (res.status = 0 ∨ res.status = 1) ∧
      res.appended.map LogRecord.status = [res.status] ∧
      (res.status = 1 ↔
        ∃ code body, env.http = HttpOutcome.response code body ∧ code = 200 ∧
          (∀ t, site.expected_text = some t →
            pyStrip t = "" ∨ pyContains body t = true)) := by
  refine ⟨_, check_site_ok cfg env site hdb, ?_, by simp, ?_⟩
  · exact httpSection_status_cases env site.expected_text
  · exact httpSection_status_eq_one_iff env site.expected_text

/-- Witness for C1: a concrete probe (200 response whose body contains
the expected text, persistence working) classified by the theorem. -/
theorem c1_status_classification_witness :
    ∃ res, check_site ⟨none, none⟩
        ⟨SslOutcome.fault "err", HttpOutcome.response 200 "hello Welcome page", 3, true,
         0, "2026-01-01T00:00:00", "2026-01-01 00:00:00", none⟩
        ⟨1, "http://ok.example", 60, some "Welcome"⟩ = Except.ok res ∧
      (res.status = 0 ∨ res.status = 1) ∧
      res.appended.map LogRecord.status = [res.status] ∧
      (res.status = 1 ↔
        ∃ code body,
          (HttpOutcome.response 200 "hello Welcome page" : HttpOutcome) =
            HttpOutcome.response code body ∧ code = 200 ∧
          (∀ t, (some "Welcome" : Option String) = some t →
            pyStrip t = "" ∨ pyContains body t = true)) :=
  c1_status_classification ⟨none, none⟩
    ⟨SslOutcome.fault "err", HttpOutcome.response 200 "hello Welcome page", 3, true,
     0, "2026-01-01T00:00:00", "2026-01-01 00:00:00", none⟩
    ⟨1, "http://ok.example", 60, some "Welcome"⟩ rfl

/-- Claim C2: for every DOWN probe the reported reason and response time
follow the strict three-way priority of lines 117-124: a network fault
gives `response_time = none` and the "Not responding" reason; otherwise
a non-200 code gives the measured response time and a reason naming that
code (independently of the expected text); otherwise (a 200 response
with the content check failed) the "Expected text not found" reason.
Stated with the transport configured so the message is observable. -/
theorem c2_down_reason_priority (cfg : Config) (env : ProbeEnv) (site : SiteRow)
    (hdb : env.dbOk = true)
    (htok : pyTruthy cfg.telegram_token = true)
    (hchat : pyTruthy cfg.telegram_chat_id = true) :
    ∃ res, check_site cfg env site = Except.ok res ∧
      ((env.http = HttpOutcome.fault →
          res.status = 0 ∧
          res.appended.map LogRecord.response_time = [none] ∧
          Effect.telegramPost (tgApiUrl cfg)
            (mkDownMessage site.url env.nowFmt none site.expected_text site.check_interval
              (sslSection cfg env site.url).1 "❌ Not responding (timeout)")
            ∈ res.effects) ∧
       (∀ code body, env.http = HttpOutcome.response code body → code ≠ 200 →
          res.status = 0 ∧
          res.appended.map LogRecord.response_time = [some env.elapsed] ∧
          Effect.telegramPost (tgApiUrl cfg)
            (mkDownMessage site.url env.nowFmt (some env.elapsed) site.expected_text
              site.check_interval (sslSection cfg env site.url).1
              ("⚠️ HTTP status: " ++ toString code))
            ∈ res.effects) ∧
       (∀ body, env.http = HttpOutcome.response 200 body → res.status = 0 →
          res.appended.map LogRecord.response_time = [some env.elapsed] ∧
          Effect.telegramPost (tgApiUrl cfg)
            (mkDownMessage site.url env.nowFmt (some env.elapsed) site.expected_text
              site.check_interval (sslSection cfg env site.url).1
              ("🔍 Expected text \x27" ++ pyStr site.expected_text ++ "\x27 not found"))
            ∈ res.effects)) := by
  refine ⟨_, check_site_ok cfg env site hdb, ?_, ?_, ?_⟩
  · intro hf
    have hh : httpSection env site.expected_text = (none, 0, 0) := by
      simp [httpSection, hf]
    have hds : downSection cfg env site (sslSection cfg env site.url).1 none 0 0 =
        send_telegram cfg env.postStatus
          (mkDownMessage site.url env.nowFmt none site.expected_text site.check_interval
            (sslSection cfg env site.url).1 "❌ Not responding (timeout)") := by
      simp [downSection, downReason, htok, hchat]
    refine ⟨by simp [hh], by simp [hh], ?_⟩
    simp [hh, hds, send_telegram, List.mem_append]
  · intro code body hr hcode
    have hh : httpSection env site.expected_text = (some env.elapsed, 0, code) := by
      simp [httpSection, hr, show (code == 200) = false by simpa using hcode]
    have hds : downSection cfg env site (sslSection cfg env site.url).1 (some env.elapsed) 0 code =
        send_telegram cfg env.postStatus
          (mkDownMessage site.url env.nowFmt (some env.elapsed) site.expected_text
            site.check_interval (sslSection cfg env site.url).1
            ("⚠️ HTTP status: " ++ toString code)) := by
      simp [downSection, downReason, htok, hchat, hcode]
    refine ⟨by simp [hh], by simp [hh], ?_⟩
    simp [hh, hds, send_telegram, List.mem_append]
  · intro body hr hzero
    have hzero' : (httpSection env site.expected_text).2.1 = 0 := by
      simpa using hzero
    have hh : httpSection env site.expected_text = (some env.elapsed, 0, 200) := by
      rcases h200 : httpSection env site.expected_text with ⟨rt, st, sc⟩
      have hrt : rt = some env.elapsed := by
        have := congrArg Prod.fst h200
        simpa [httpSection, hr] using this.symm
      have hsc : sc = 200 := by
        have := congrArg (fun p => p.2.2) h200
        simpa [httpSection, hr] using this.symm
      have hst : st = 0 := by
        have := congrArg (fun p => p.2.1) h200
        rw [h200] at hzero'
        simpa using hzero'
      simp [hrt, hsc, hst]
    have hds : downSection cfg env site (sslSection cfg env site.url).1 (some env.elapsed) 0 200 =
        send_telegram cfg env.postStatus
          (mkDownMessage site.url env.nowFmt (some env.elapsed) site.expected_text
            site.check_interval (sslSection cfg env site.url).1
            ("🔍 Expected text \x27" ++ pyStr site.expected_text ++ "\x27 not found")) := by
      simp [downSection, downReason, htok, hchat]
    refine ⟨by simp [hh], ?_⟩
    simp [hh, hds, send_telegram, List.mem_append]

/-- Witness for C2: a concrete probe whose request faults, with the
transport configured; the theorem yields the DOWN record with no
response time and the "Not responding" alert message. -/
theorem c2_down_reason_priority_witness :
    ∃ res, check_site ⟨some "tok", some "chat"⟩
        ⟨SslOutcome.fault "err", HttpOutcome.fault, 3, true, 0,
         "2026-01-01T00:00:00", "2026-01-01 00:00:00", some 200⟩
        ⟨1, "http://a.example", 60, none⟩ = Except.ok res ∧
      res.status = 0 ∧
      res.appended.map LogRecord.response_time = [none] ∧
      Effect.telegramPost (tgApiUrl ⟨some "tok", some "chat"⟩)
        (mkDownMessage "http://a.example" "2026-01-01 00:00:00" none none 60
          (sslSection ⟨some "tok", some "chat"⟩
            ⟨SslOutcome.fault "err", HttpOutcome.fault, 3, true, 0,
             "2026-01-01T00:00:00", "2026-01-01 00:00:00", some 200⟩ "http://a.example").1
          "❌ Not responding (timeout)") ∈ res.effects := by
  obtain ⟨res, hok, hfault, -, -⟩ :=
    c2_down_reason_priority ⟨some "tok", some "chat"⟩
      ⟨SslOutcome.fault "err", HttpOutcome.fault, 3, true, 0,
       "2026-01-01T00:00:00", "2026-01-01 00:00:00", some 200⟩
      ⟨1, "http://a.example", 60, none⟩ rfl (by decide) (by decide)
  obtain ⟨h1, h2, h3⟩ := hfault rfl
  exact ⟨res, hok, h1, h2, h3⟩

/-! Shape lemmas for the effect traces -/

lemma probedUrls_append (a b : List Effect) :
    probedUrls (a ++ b) = probedUrls a ++ probedUrls b := by
  simp [probedUrls]

lemma probedUrls_sendLog (ps : Option Nat) : probedUrls (sendLog ps) = [] := by
  cases ps with
  | none => simp [sendLog, probedUrls]
  | some c =>
    by_cases h : c = 200 <;> simp [sendLog, probedUrls, h]

lemma probedUrls_send_telegram (cfg : Config) (ps : Option Nat) (m : String) :
    probedUrls (send_telegram cfg ps m) = [] := by
  simpa [send_telegram, probedUrls] using probedUrls_sendLog ps

lemma probedUrls_sslSection (cfg : Config) (env : ProbeEnv) (url : String) :
    probedUrls (sslSection cfg env url).2 = [] := by
  unfold sslSection
  split
  · cases h : env.ssl with
    | fault e => simp [check_ssl_expiry, h, probedUrls]
    | cert d fmt =>
      simp only [check_ssl_expiry, h]
      split
      · rw [probedUrls_append, probedUrls_send_telegram]
        simp [probedUrls]
      · simp [probedUrls]
  · simp [probedUrls]

lemma probedUrls_downSection (cfg : Config) (env : ProbeEnv) (site : SiteRow)
    (info : Option String) (rt : Option Nat) (st sc : Nat) :
    probedUrls (downSection cfg env site info rt st sc) = [] := by
  unfold downSection
  split
  · split
    · exact probedUrls_send_telegram _ _ _
    · simp [probedUrls]
  · simp [probedUrls]

/-- A normal `check_site` run issues exactly one HTTP GET, to the
site's URL. -/
lemma probedUrls_check_site_ok (cfg : Config) (env : ProbeEnv) (site : SiteRow)
    (res : CheckResult) (h : check_site cfg env site = Except.ok res) :
    probedUrls res.effects = [site.url] := by
  rcases hdb : env.dbOk with hf | ht
  · rw [check_site_error cfg env site hdb] at h
    cases h
  · rw [check_site_ok cfg env site hdb] at h
    cases h
    show probedUrls (_ ++ [Effect.httpGet site.url] ++ [Effect.dbInsert _] ++ _) = _
    rw [probedUrls_append, probedUrls_append, probedUrls_append,
      probedUrls_sslSection, probedUrls_downSection]
    simp [probedUrls]

/-- A faulting `check_site` run has still issued its HTTP GET (the
persistence write it dies on comes after the request). -/
lemma probedUrls_check_site_error (cfg : Config) (env : ProbeEnv) (site : SiteRow)
    (effs : List Effect) (h : check_site cfg env site = Except.error effs) :
    probedUrls effs = [site.url] := by
  rcases hdb : env.dbOk with hf | ht
  · rw [check_site_error cfg env site hdb] at h
    cases h
    rw [probedUrls_append, probedUrls_sslSection]
    simp [probedUrls]
  · rw [check_site_ok cfg env site hdb] at h
    cases h

/-- `runSites` leaves the `sites` table untouched. -/
lemma runSites_sites (cfg : Config) (envOf : Nat → ProbeEnv) (rows : List SiteRow) (db : DB) :
    (runSites cfg envOf rows db).1.sites = db.sites := by
  induction rows generalizing db with
  | nil => rfl
  | cons r rest ih =>
    simp only [runSites]
    rcases h : check_site cfg (envOf r.id) r with effs | res
    · rfl
    · simpa [appendLogs] using ih (appendLogs db res.appended)

/-- One step of `runSites` when the head site's check raises. -/
lemma runSites_cons_error (cfg : Config) (envOf : Nat → ProbeEnv) (s : SiteRow)
    (rest : List SiteRow) (db : DB) (effs : List Effect)
    (h : check_site cfg (envOf s.id) s = Except.error effs) :
    runSites cfg envOf (s :: rest) db = (db, effs, true) := by
  simp [runSites, h]

/-- One step of `runSites` when the head site's check returns. -/
lemma runSites_cons_ok (cfg : Config) (envOf : Nat → ProbeEnv) (s : SiteRow)
    (rest : List SiteRow) (db : DB) (res : CheckResult)
    (h : check_site cfg (envOf s.id) s = Except.ok res) :
    runSites cfg envOf (s :: rest) db =
      ((runSites cfg envOf rest (appendLogs db res.appended)).1,
       res.effects ++
         Effect.sleep 1 :: (runSites cfg envOf rest (appendLogs db res.appended)).2.1,
       (runSites cfg envOf rest (appendLogs db res.appended)).2.2) := by
  simp [runSites, h]

/-- If every site before `bad` records successfully and `bad`'s
persistence write fails, the iteration probes exactly the prefix up to
and including `bad` and reports the escaped fault. -/
lemma runSites_fault (cfg : Config) (envOf : Nat → ProbeEnv)
    (pre : List SiteRow) (bad : SiteRow) (post : List SiteRow) (db : DB)
    (hpre : ∀ r ∈ pre, (envOf r.id).dbOk = true)
    (hbad : (envOf bad.id).dbOk = false) :
    (runSites cfg envOf (pre ++ bad :: post) db).2.2 = true ∧
    probedUrls (runSites cfg envOf (pre ++ bad :: post) db).2.1 =
      pre.map SiteRow.url ++ [bad.url] := by
  induction pre generalizing db with
  | nil =>
    have herr := check_site_error cfg (envOf bad.id) bad hbad
    rw [List.nil_append, runSites_cons_error cfg envOf bad post db _ herr]
    exact ⟨rfl, by
      simpa using probedUrls_check_site_error cfg (envOf bad.id) bad _ herr⟩
  | cons r rest ih =>
    have hr : (envOf r.id).dbOk = true := hpre r (by simp)
    have hok := check_site_ok cfg (envOf r.id) r hr
    rw [List.cons_append, runSites_cons_ok cfg envOf r (rest ++ bad :: post) db _ hok]
    have ihr := ih (appendLogs db [⟨r.id, (httpSection (envOf r.id) r.expected_text).2.1,
        (httpSection (envOf r.id) r.expected_text).1, (envOf r.id).nowIso⟩])
      (fun x hx => hpre x (by simp [hx]))
    refine ⟨ihr.1, ?_⟩
    rw [probedUrls_append]
    have hfirst := probedUrls_check_site_ok cfg (envOf r.id) r _ hok
    have hsleep : probedUrls (Effect.sleep 1 ::
        (runSites cfg envOf (rest ++ bad :: post) (appendLogs db
          [⟨r.id, (httpSection (envOf r.id) r.expected_text).2.1,
            (httpSection (envOf r.id) r.expected_text).1, (envOf r.id).nowIso⟩])).2.1) =
        probedUrls (runSites cfg envOf (rest ++ bad :: post) (appendLogs db
          [⟨r.id, (httpSection (envOf r.id) r.expected_text).2.1,
            (httpSection (envOf r.id) r.expected_text).1, (envOf r.id).nowIso⟩])).2.1 := by
      simp [probedUrls]
    rw [hsleep, ihr.2, hfirst]
    simp

/-- Counterexample to claim C3: a fleet of two enabled sites where the
persistence write for the first site fails. The claim says the loop
continues probing the rest of the sites in that same cycle, but the
second enabled site is never probed in the cycle (only `http://a` is
GET) and no record at all is appended. -/
theorem c3_fault_aborts_cycle_cex :
    enabledRows ⟨[⟨1, "http://a", 60, none, 1⟩, ⟨2, "http://b", 60, none, 1⟩], []⟩ =
      [⟨1, "http://a", 60, none⟩, ⟨2, "http://b", 60, none⟩] ∧
    probedUrls (runCycle ⟨none, none⟩
        (fun i => if i = 1 then
          ⟨SslOutcome.fault "e", HttpOutcome.response 200 "ok", 1, false, 0, "t", "t", none⟩
         else
          ⟨SslOutcome.fault "e", HttpOutcome.response 200 "ok", 1, true, 0, "t", "t", none⟩)
        true ⟨[⟨1, "http://a", 60, none, 1⟩, ⟨2, "http://b", 60, none, 1⟩], []⟩).2 =
      ["http://a"] ∧
    (runCycle ⟨none, none⟩
        (fun i => if i = 1 then
          ⟨SslOutcome.fault "e", HttpOutcome.response 200 "ok", 1, false, 0, "t", "t", none⟩
         else
          ⟨SslOutcome.fault "e", HttpOutcome.response 200 "ok", 1, true, 0, "t", "t", none⟩)
        true ⟨[⟨1, "http://a", 60, none, 1⟩, ⟨2, "http://b", 60, none, 1⟩], []⟩).1.logs =
      [] := by
  decide

/-- Claim C3 (amended): a fault raised while probing or recording one
Site (here, a persistence write failure in `check_site`) is caught and
logged only at the cycle boundary: the remaining Sites of that cycle
are skipped, the error is logged followed by the 10-second pause, and
the loop itself survives with the registry intact for the next cycle. -/
theorem c3_fault_caught_at_cycle_boundary (cfg : Config) (envOf : Nat → ProbeEnv) (db : DB)
    (pre : List SiteRow) (bad : SiteRow) (post : List SiteRow)
    (hrows : enabledRows db = pre ++ bad :: post)
    (hpre : ∀ r ∈ pre, (envOf r.id).dbOk = true)
    (hbad : (envOf bad.id).dbOk = false) :
    probedUrls (runCycle cfg envOf true db).2 = pre.map SiteRow.url ++ [bad.url] ∧
    (∃ effs0, (runCycle cfg envOf true db).2 =
        effs0 ++ [Effect.logLocal cycleErrMsg, Effect.sleep 10]) ∧
    (runCycle cfg envOf true db).1.sites = db.sites := by
  have hfault := runSites_fault cfg envOf pre bad post db hpre hbad
  have h1 : runCycle cfg envOf true db =
      ((runSites cfg envOf (pre ++ bad :: post) db).1,
       (runSites cfg envOf (pre ++ bad :: post) db).2.1 ++
         [Effect.logLocal cycleErrMsg, Effect.sleep 10]) := by
    unfold runCycle
    rw [if_pos rfl, hrows]
    simp [hfault.1]
  rw [h1]
  refine ⟨?_, ⟨_, rfl⟩, ?_⟩
  · rw [probedUrls_append, hfault.2]
    simp [probedUrls]
  · exact runSites_sites cfg envOf _ db

/-- Witness for the amended C3: the concrete two-site fleet from the
counterexample, instantiating the amended theorem. -/
theorem c3_fault_caught_at_cycle_boundary_witness :
    probedUrls (runCycle ⟨none, none⟩
        (fun i => if i = 1 then
          ⟨SslOutcome.fault "e", HttpOutcome.response 200 "ok", 1, false, 0, "t", "t", none⟩
         else
          ⟨SslOutcome.fault "e", HttpOutcome.response 200 "ok", 1, true, 0, "t", "t", none⟩)
        true ⟨[⟨1, "http://a", 60, none, 1⟩, ⟨2, "http://b", 60, none, 1⟩], []⟩).2 =
      [].map SiteRow.url ++ ["http://a"] ∧
    (∃ effs0, (runCycle ⟨none, none⟩
        (fun i => if i = 1 then
          ⟨SslOutcome.fault "e", HttpOutcome.response 200 "ok", 1, false, 0, "t", "t", none⟩
         else
          ⟨SslOutcome.fault "e", HttpOutcome.response 200 "ok", 1, true, 0, "t", "t", none⟩)
        true ⟨[⟨1, "http://a", 60, none, 1⟩, ⟨2, "http://b", 60, none, 1⟩], []⟩).2 =
        effs0 ++ [Effect.logLocal cycleErrMsg, Effect.sleep 10]) ∧
    (runCycle ⟨none, none⟩
        (fun i => if i = 1 then
          ⟨SslOutcome.fault "e", HttpOutcome.response 200 "ok", 1, false, 0, "t", "t", none⟩
         else
          ⟨SslOutcome.fault "e", HttpOutcome.response 200 "ok", 1, true, 0, "t", "t", none⟩)
        true ⟨[⟨1, "http://a", 60, none, 1⟩, ⟨2, "http://b", 60, none, 1⟩], []⟩).1.sites =
      [⟨1, "http://a", 60, none, 1⟩, ⟨2, "http://b", 60, none, 1⟩] :=
  c3_fault_caught_at_cycle_boundary ⟨none, none⟩
    (fun i => if i = 1 then
      ⟨SslOutcome.fault "e", HttpOutcome.response 200 "ok", 1, false, 0, "t", "t", none⟩
     else
      ⟨SslOutcome.fault "e", HttpOutcome.response 200 "ok", 1, true, 0, "t", "t", none⟩)
    ⟨[⟨1, "http://a", 60, none, 1⟩, ⟨2, "http://b", 60, none, 1⟩], []⟩
    [] ⟨1, "http://a", 60, none⟩ [⟨2, "http://b", 60, none⟩]
    (by decide) (by intro r hr; cases hr) (by decide)

/-! Prefix and counting lemmas for alert observers -/

lemma isPrefixOf_append_left (l1 l2 l3 : List Char) (h : l1.isPrefixOf l2 = true) :
    l1.isPrefixOf (l2 ++ l3) = true := by
  induction l1 generalizing l2 with
  | nil => simp [List.isPrefixOf]
  | cons a as ih =>
    cases l2 with
    | nil => simp [List.isPrefixOf] at h
    | cons b bs =>
      rw [List.cons_append]
      simp only [List.isPrefixOf, Bool.and_eq_true] at h ⊢
      exact ⟨h.1, ih bs h.2⟩

lemma isPrefixOf_false_of_head (l1 l2 : List Char) (c1 c2 : Char)
    (h1 : l1.head? = some c1) (h2 : l2.head? = some c2) (h : c1 ≠ c2) :
    l1.isPrefixOf l2 = false := by
  cases l1 with
  | nil => simp at h1
  | cons a as =>
    cases l2 with
    | nil => simp [List.isPrefixOf]
    | cons b bs =>
      simp at h1 h2
      subst h1
      subst h2
      simp [List.isPrefixOf, beq_eq_false_iff_ne.mpr h]

lemma head?_append_left {l r : List Char} {c : Char} (h : l.head? = some c) :
    (l ++ r).head? = some c := by
  cases l with
  | nil => simp at h
  | cons a as => simpa using h

lemma pyStartsWith_append (s t pre : String) (h : pyStartsWith s pre = true) :
    pyStartsWith (s ++ t) pre = true := by
  unfold pyStartsWith at h ⊢
  rw [String.data_append]
  exact isPrefixOf_append_left _ _ _ h

/-- Every SSL warning message carries the fixed SSL-warning head. -/
lemma sslAlertMessage_startsWith (url : String) (d : Int) :
    pyStartsWith (sslAlertMessage url d) sslAlertHead = true := by
  unfold sslAlertMessage
  apply pyStartsWith_append
  apply pyStartsWith_append
  apply pyStartsWith_append
  apply pyStartsWith_append
  decide

/-- A DOWN message never carries the SSL-warning head (their first
characters differ). -/
lemma mkDownMessage_not_sslAlertHead (url cur : String) (rt : Option Nat)
    (et : Option String) (k : Nat) (info : Option String) (reason : String) :
    pyStartsWith (mkDownMessage url cur rt et k info reason) sslAlertHead = false := by
  unfold pyStartsWith
  apply isPrefixOf_false_of_head _ _ '⚠' '🔴' (by decide) _ (by decide)
  unfold mkDownMessage
  simp only [String.data_append]
  repeat apply head?_append_left
  decide

lemma postCount_append (a b : List Effect) :
    postCount (a ++ b) = postCount a + postCount b := by
  simp [postCount, List.filter_append]

lemma sslAlertCount_append (a b : List Effect) :
    sslAlertCount (a ++ b) = sslAlertCount a + sslAlertCount b := by
  simp [sslAlertCount, List.filter_append]

lemma alertCount_append (a b : List Effect) :
    alertCount (a ++ b) = alertCount a + alertCount b := by
  simp only [alertCount, postCount, List.filter_append, List.length_append]
  omega

/-- The post-POST log of `send_telegram` is a single local log line. -/
lemma sendLog_eq (ps : Option Nat) : ∃ m, sendLog ps = [Effect.logLocal m] := by
  cases ps with
  | none => exact ⟨_, rfl⟩
  | some c =>
    by_cases h : c = 200 <;> simp [sendLog, h]

lemma postCount_send_telegram (cfg : Config) (ps : Option Nat) (m : String) :
    postCount (send_telegram cfg ps m) = 1 := by
  obtain ⟨m', hm⟩ := sendLog_eq ps
  simp [send_telegram, hm, postCount]

lemma sslAlertCount_send_telegram (cfg : Config) (ps : Option Nat) (m : String) :
    sslAlertCount (send_telegram cfg ps m) =
      if pyStartsWith m sslAlertHead then 1 else 0 := by
  obtain ⟨m', hm⟩ := sendLog_eq ps
  by_cases h : pyStartsWith m sslAlertHead = true <;>
    simp [send_telegram, hm, sslAlertCount, h]

/-! Shape of the SSL section -/

lemma sslSection_not_https (cfg : Config) (env : ProbeEnv) (url : String)
    (h : pyStartsWith url "https://" = false) :
    sslSection cfg env url = (none, []) := by
  simp [sslSection, h]

lemma sslSection_fault (cfg : Config) (env : ProbeEnv) (url : String) (e : String)
    (h : pyStartsWith url "https://" = true) (hssl : env.ssl = SslOutcome.fault e) :
    sslSection cfg env url =
      (none, [Effect.tlsConnect (extract_hostname url) sslDefaultPort]) := by
  simp [sslSection, h, hssl, check_ssl_expiry]

lemma sslSection_cert_warn (cfg : Config) (env : ProbeEnv) (url : String)
    (d : Int) (fmt : String)
    (h : pyStartsWith url "https://" = true) (hssl : env.ssl = SslOutcome.cert d fmt)
    (h7 : d - env.nowDay < 7) :
    sslSection cfg env url =
      (some ("SSL: expires " ++ fmt ++ " (" ++ toString (d - env.nowDay) ++ " days left)"),
       [Effect.tlsConnect (extract_hostname url) sslDefaultPort] ++
         send_telegram cfg env.postStatus (sslAlertMessage url (d - env.nowDay))) := by
  simp [sslSection, h, hssl, check_ssl_expiry, h7]

lemma sslSection_cert_ok (cfg : Config) (env : ProbeEnv) (url : String)
    (d : Int) (fmt : String)
    (h : pyStartsWith url "https://" = true) (hssl : env.ssl = SslOutcome.cert d fmt)
    (h7 : ¬ d - env.nowDay < 7) :
    sslSection cfg env url =
      (some ("SSL: expires " ++ fmt ++ " (" ++ toString (d - env.nowDay) ++ " days left)"),
       [Effect.tlsConnect (extract_hostname url) sslDefaultPort]) := by
  simp [sslSection, h, hssl, check_ssl_expiry, h7]

/-- The SSL section POSTs exactly when the site qualifies for the
SSL-expiry warning. -/
lemma postCount_sslSection (cfg : Config) (env : ProbeEnv) (url : String) :
    postCount (sslSection cfg env url).2 = if sslQualifies env url then 1 else 0 := by
  by_cases hu : pyStartsWith url "https://" = true
  · cases hssl : env.ssl with
    | fault e =>
      rw [sslSection_fault cfg env url e hu hssl]
      simp [postCount, sslQualifies, hssl]
    | cert d fmt =>
      by_cases h7 : d - env.nowDay < 7
      · rw [sslSection_cert_warn cfg env url d fmt hu hssl h7]
        show postCount (_ ++ _) = _
        rw [postCount_append, postCount_send_telegram]
        simp [postCount, sslQualifies, hssl, hu, h7]
      · rw [sslSection_cert_ok cfg env url d fmt hu hssl h7]
        simp [postCount, sslQualifies, hssl, hu, h7]
  · have hu' : pyStartsWith url "https://" = false := by simpa using hu
    rw [sslSection_not_https cfg env url hu']
    simp [postCount, sslQualifies, hu']

/-- Every POST of the SSL section is an SSL-expiry warning, and it is
sent exactly when the site qualifies. -/
lemma sslAlertCount_sslSection (cfg : Config) (env : ProbeEnv) (url : String) :
    sslAlertCount (sslSection cfg env url).2 = if sslQualifies env url then 1 else 0 := by
  by_cases hu : pyStartsWith url "https://" = true
  · cases hssl : env.ssl with
    | fault e =>
      rw [sslSection_fault cfg env url e hu hssl]
      simp [sslAlertCount, sslQualifies, hssl]
    | cert d fmt =>
      by_cases h7 : d - env.nowDay < 7
      · rw [sslSection_cert_warn cfg env url d fmt hu hssl h7]
        show sslAlertCount (_ ++ _) = _
        rw [sslAlertCount_append, sslAlertCount_send_telegram,
          sslAlertMessage_startsWith]
        simp [sslAlertCount, sslQualifies, hssl, hu, h7]
      · rw [sslSection_cert_ok cfg env url d fmt hu hssl h7]
        simp [sslAlertCount, sslQualifies, hssl, hu, h7]
  · have hu' : pyStartsWith url "https://" = false := by simpa using hu
    rw [sslSection_not_https cfg env url hu']
    simp [sslAlertCount, sslQualifies, hu']

/-! Shape of the down-alert section -/

/-- With the transport unconfigured, a DOWN probe only logs locally. -/
lemma downSection_creds_false (cfg : Config) (env : ProbeEnv) (site : SiteRow)
    (info : Option String) (rt : Option Nat) (st sc : Nat)
    (hcred : (pyTruthy cfg.telegram_token && pyTruthy cfg.telegram_chat_id) = false) :
    downSection cfg env site info rt st sc =
      if st = 0 then [Effect.logLocal "ℹ️ Telegram is not configured"] else [] := by
  by_cases hst : st = 0 <;> simp [downSection, hcred, hst]

/-- The down-alert section never POSTs an SSL-expiry warning. -/
lemma sslAlertCount_downSection (cfg : Config) (env : ProbeEnv) (site : SiteRow)
    (info : Option String) (rt : Option Nat) (st sc : Nat) :
    sslAlertCount (downSection cfg env site info rt st sc) = 0 := by
  unfold downSection
  split
  · split
    · rw [sslAlertCount_send_telegram, mkDownMessage_not_sslAlertHead]
      simp
    · simp [sslAlertCount]
  · simp [sslAlertCount]

lemma postCount_downSection_creds_false (cfg : Config) (env : ProbeEnv) (site : SiteRow)
    (info : Option String) (rt : Option Nat) (st sc : Nat)
    (hcred : (pyTruthy cfg.telegram_token && pyTruthy cfg.telegram_chat_id) = false) :
    postCount (downSection cfg env site info rt st sc) = 0 := by
  rw [downSection_creds_false cfg env site info rt st sc hcred]
  by_cases hst : st = 0 <;> simp [postCount, hst]

/-- A normal `check_site` run POSTs an SSL-expiry warning exactly when
the site qualifies, whatever else happens. -/
lemma sslAlertCount_check_site (cfg : Config) (env : ProbeEnv) (site : SiteRow)
    (res : CheckResult) (h : check_site cfg env site = Except.ok res) :
    sslAlertCount res.effects = if sslQualifies env site.url then 1 else 0 := by
  rcases hdb : env.dbOk with hf | ht
  · rw [check_site_error cfg env site hdb] at h
    cases h
  · rw [check_site_ok cfg env site hdb] at h
    cases h
    show sslAlertCount (_ ++ [Effect.httpGet site.url] ++ [Effect.dbInsert _] ++ _) = _
    rw [sslAlertCount_append, sslAlertCount_append, sslAlertCount_append,
      sslAlertCount_sslSection, sslAlertCount_downSection]
    simp [sslAlertCount]

/-! Claim C4 -/

/-- Counterexample to claim C4: with both transport credentials absent
and an HTTPS certificate 3 days from expiry, the SSL-expiry alert path
still calls `send_telegram`, which attempts exactly one external HTTP
POST to the messaging endpoint — the claim says no POST is attempted. -/
theorem c4_ssl_alert_posts_without_credentials_cex :
    pyTruthy none = false ∧
    (check_site ⟨none, none⟩
        ⟨SslOutcome.cert 3 "2026-03-01", HttpOutcome.response 200 "ok", 1, true, 0,
         "t", "t", none⟩
        ⟨1, "https://a.b", 60, none⟩).toOption.map (fun r => postCount r.effects) =
      some 1 := by
  decide

/-- Claim C4 (amended): with transport credentials absent, a DOWN
condition is only logged locally (no POST from the down-alert branch,
every POST in the trace is an SSL-expiry warning) and the probe result
is still recorded; but the SSL-expiry warning path calls `send_telegram`
without a credential check, so a qualifying certificate still causes an
external POST to the messaging endpoint. -/
theorem c4_credentials_absent (cfg : Config) (env : ProbeEnv) (site : SiteRow)
    (hcred : (pyTruthy cfg.telegram_token && pyTruthy cfg.telegram_chat_id) = false)
    (hdb : env.dbOk = true) :
    ∃ res, check_site cfg env site = Except.ok res ∧
      res.appended.length = 1 ∧
      postCount res.effects = sslAlertCount res.effects ∧
      (res.status = 0 → Effect.logLocal "ℹ️ Telegram is not configured" ∈ res.effects) ∧
      (sslQualifies env site.url = true → 1 ≤ postCount res.effects) := by
  have hok := check_site_ok cfg env site hdb
  refine ⟨_, hok, by simp, ?_, ?_, ?_⟩
  · show postCount (_ ++ [Effect.httpGet site.url] ++ [Effect.dbInsert _] ++ _) =
      sslAlertCount (_ ++ [Effect.httpGet site.url] ++ [Effect.dbInsert _] ++ _)
    rw [postCount_append, postCount_append, postCount_append,
      sslAlertCount_append, sslAlertCount_append, sslAlertCount_append,
      postCount_sslSection, sslAlertCount_sslSection,
      postCount_downSection_creds_false cfg env site _ _ _ _ hcred,
      sslAlertCount_downSection]
    simp [postCount, sslAlertCount]
  · intro hst
    have hst' : (httpSection env site.expected_text).2.1 = 0 := hst
    rw [downSection_creds_false cfg env site _ _ _ _ hcred, hst']
    simp
  · intro hq
    show 1 ≤ postCount (_ ++ [Effect.httpGet site.url] ++ [Effect.dbInsert _] ++ _)
    rw [postCount_append, postCount_append, postCount_append, postCount_sslSection, hq]
    simp only [if_true]
    omega

/-- Witness for the amended C4: the concrete unconfigured run of the
counterexample, instantiated through the theorem. -/
theorem c4_credentials_absent_witness :
    ∃ res, check_site ⟨none, none⟩
        ⟨SslOutcome.cert 3 "2026-03-01", HttpOutcome.response 200 "ok", 1, true, 0,
         "t", "t", none⟩
        ⟨1, "https://a.b", 60, none⟩ = Except.ok res ∧
      res.appended.length = 1 ∧
      postCount res.effects = sslAlertCount res.effects ∧
      (res.status = 0 → Effect.logLocal "ℹ️ Telegram is not configured" ∈ res.effects) ∧
      (sslQualifies
          ⟨SslOutcome.cert 3 "2026-03-01", HttpOutcome.response 200 "ok", 1, true, 0,
           "t", "t", none⟩ "https://a.b" = true → 1 ≤ postCount res.effects) :=
  c4_credentials_absent ⟨none, none⟩
    ⟨SslOutcome.cert 3 "2026-03-01", HttpOutcome.response 200 "ok", 1, true, 0,
     "t", "t", none⟩
    ⟨1, "https://a.b", 60, none⟩ (by decide) rfl

/-! Claim C5 -/

/-- Claim C5: on any TLS inspection failure `check_ssl_expiry` returns
`(none, error_description)`; in `check_site` this never triggers the
SSL-expiry warning (no warning POST in the whole trace), does not by
itself classify the site DOWN (the status is exactly the HTTP
section's classification), and the HTTP probe still runs. -/
theorem c5_tls_failure_is_not_a_warning (cfg : Config) (env : ProbeEnv) (site : SiteRow)
    (e : String) (hssl : env.ssl = SslOutcome.fault e) (hdb : env.dbOk = true) :
    check_ssl_expiry (extract_hostname site.url) sslDefaultPort env.nowDay env.ssl =
      ((none, e), [Effect.tlsConnect (extract_hostname site.url) sslDefaultPort]) ∧
    ∃ res, check_site cfg env site = Except.ok res ∧
      sslAlertCount res.effects = 0 ∧
      Effect.httpGet site.url ∈ res.effects ∧
      res.status = (httpSection env site.expected_text).2.1 := by
  refine ⟨by simp [check_ssl_expiry, hssl], _, check_site_ok cfg env site hdb, ?_, ?_, rfl⟩
  · rw [sslAlertCount_check_site cfg env site _ (check_site_ok cfg env site hdb)]
    simp [sslQualifies, hssl]
  · simp [List.mem_append]

/-- Witness for C5: a concrete HTTPS site whose TLS inspection fails
while its HTTP probe succeeds. -/
theorem c5_tls_failure_is_not_a_warning_witness :
    check_ssl_expiry (extract_hostname "https://a.b") sslDefaultPort 0
        (SslOutcome.fault "handshake failed") =
      ((none, "handshake failed"),
       [Effect.tlsConnect (extract_hostname "https://a.b") sslDefaultPort]) ∧
    ∃ res, check_site ⟨none, none⟩
        ⟨SslOutcome.fault "handshake failed", HttpOutcome.response 200 "ok", 1, true, 0,
         "t", "t", none⟩
        ⟨1, "https://a.b", 60, none⟩ = Except.ok res ∧
      sslAlertCount res.effects = 0 ∧
      Effect.httpGet "https://a.b" ∈ res.effects ∧
      res.status = (httpSection
        ⟨SslOutcome.fault "handshake failed", HttpOutcome.response 200 "ok", 1, true, 0,
         "t", "t", none⟩ none).2.1 :=
  c5_tls_failure_is_not_a_warning ⟨none, none⟩
    ⟨SslOutcome.fault "handshake failed", HttpOutcome.response 200 "ok", 1, true, 0,
     "t", "t", none⟩
    ⟨1, "https://a.b", 60, none⟩ "handshake failed" rfl rfl

/-! Cycle-level lemmas -/

lemma sslAlertCount_append_cons_sleep (a : List Effect) (n : Nat) (b : List Effect) :
    sslAlertCount (a ++ Effect.sleep n :: b) = sslAlertCount a + sslAlertCount b := by
  rw [sslAlertCount_append]
  simp [sslAlertCount, List.filter_cons]

/-- With every persistence write succeeding, no fault escapes the
per-site iteration. -/
lemma runSites_no_fault (cfg : Config) (envOf : Nat → ProbeEnv) (rows : List SiteRow)
    (db : DB) (hok : ∀ r ∈ rows, (envOf r.id).dbOk = true) :
    (runSites cfg envOf rows db).2.2 = false := by
  induction rows generalizing db with
  | nil => rfl
  | cons r rest ih =>
    have hr := hok r (by simp)
    rw [runSites_cons_ok cfg envOf r rest db _ (check_site_ok cfg (envOf r.id) r hr)]
    exact ih _ (fun x hx => hok x (by simp [hx]))

/-- The number of SSL-expiry warnings of one iteration over the fleet
is the number of qualifying sites. -/
lemma sslAlertCount_runSites (cfg : Config) (envOf : Nat → ProbeEnv) (rows : List SiteRow)
    (db : DB) (hok : ∀ r ∈ rows, (envOf r.id).dbOk = true) :
    sslAlertCount (runSites cfg envOf rows db).2.1 =
      (rows.filter (fun r => sslQualifies (envOf r.id) r.url)).length := by
  induction rows generalizing db with
  | nil => rfl
  | cons r rest ih =>
    have hr := hok r (by simp)
    have hcs := check_site_ok cfg (envOf r.id) r hr
    have hcount := sslAlertCount_check_site cfg (envOf r.id) r _ hcs
    rw [runSites_cons_ok cfg envOf r rest db _ hcs, sslAlertCount_append_cons_sleep,
      hcount, ih _ (fun x hx => hok x (by simp [hx]))]
    by_cases hq : sslQualifies (envOf r.id) r.url = true
    · simp [List.filter_cons, hq, Nat.add_comm]
    · have hq' : sslQualifies (envOf r.id) r.url = false := by simpa using hq
      simp [List.filter_cons, hq']

/-- In a fault-free cycle the trace is the per-site trace followed by
the end-of-cycle pause. -/
lemma runCycle_no_fault_effects (cfg : Config) (envOf : Nat → ProbeEnv) (db : DB)
    (hok : ∀ r ∈ enabledRows db, (envOf r.id).dbOk = true) :
    (runCycle cfg envOf true db).2 =
      (runSites cfg envOf (enabledRows db) db).2.1 ++ [Effect.sleep 10] := by
  unfold runCycle
  rw [if_pos rfl]
  simp [runSites_no_fault cfg envOf _ db hok]

lemma runCycle_fst (cfg : Config) (envOf : Nat → ProbeEnv) (db : DB) :
    (runCycle cfg envOf true db).1 = (runSites cfg envOf (enabledRows db) db).1 := by
  unfold runCycle
  rw [if_pos rfl]
  by_cases h : (runSites cfg envOf (enabledRows db) db).2.2 = true <;> simp [h]

lemma runCycle_sites (cfg : Config) (envOf : Nat → ProbeEnv) (db : DB) :
    (runCycle cfg envOf true db).1.sites = db.sites := by
  rw [runCycle_fst]
  exact runSites_sites cfg envOf _ db

lemma enabledRows_congr (db1 db2 : DB) (h : db1.sites = db2.sites) :
    enabledRows db1 = enabledRows db2 := by
  unfold enabledRows
  rw [h]

lemma runLoop_sites (cfg : Config) (envOf : Nat → ProbeEnv) (n : Nat) (db : DB) :
    (runLoop cfg envOf n db).1.sites = db.sites := by
  induction n generalizing db with
  | zero => rfl
  | succ k ih =>
    show (runLoop cfg envOf k (runCycle cfg envOf true db).1).1.sites = db.sites
    rw [ih, runCycle_sites]

/-- Claim C6: with persistence healthy, every cycle raises exactly one
SSL-expiry alert per qualifying HTTPS site (certificate inspection
succeeded with fewer than 7 days left): the alert count of one cycle
is the number of qualifying enabled sites, and over `n` consecutive
cycles it is exactly `n` times that number — no deduplication or
suppression across cycles. -/
theorem c6_ssl_alert_every_cycle (cfg : Config) (envOf : Nat → ProbeEnv) (db : DB) (n : Nat)
    (hok : ∀ r ∈ enabledRows db, (envOf r.id).dbOk = true) :
    sslAlertCount (runCycle cfg envOf true db).2 =
      ((enabledRows db).filter (fun r => sslQualifies (envOf r.id) r.url)).length ∧
    sslAlertCount (runLoop cfg envOf n db).2 =
      n * ((enabledRows db).filter (fun r => sslQualifies (envOf r.id) r.url)).length := by
  have hcycle : ∀ db', db'.sites = db.sites →
      sslAlertCount (runCycle cfg envOf true db').2 =
        ((enabledRows db).filter (fun r => sslQualifies (envOf r.id) r.url)).length := by
    intro db' hs
    have hrows : enabledRows db' = enabledRows db := enabledRows_congr db' db hs
    have hok' : ∀ r ∈ enabledRows db', (envOf r.id).dbOk = true := by
      rw [hrows]; exact hok
    rw [runCycle_no_fault_effects cfg envOf db' hok', sslAlertCount_append]
    rw [sslAlertCount_runSites cfg envOf (enabledRows db') db' hok', hrows]
    simp [sslAlertCount]
  have hloop : ∀ m db', db'.sites = db.sites →
      sslAlertCount (runLoop cfg envOf m db').2 =
        m * ((enabledRows db).filter (fun r => sslQualifies (envOf r.id) r.url)).length := by
    intro m
    induction m with
    | zero => intro db' _; simp [runLoop, sslAlertCount]
    | succ k ih =>
      intro db' hs
      show sslAlertCount ((runCycle cfg envOf true db').2 ++
        (runLoop cfg envOf k (runCycle cfg envOf true db').1).2) = _
      rw [sslAlertCount_append, hcycle db' hs,
        ih (runCycle cfg envOf true db').1 (by rw [runCycle_sites]; exact hs)]
      ring
  exact ⟨hcycle db rfl, hloop n db rfl⟩

/-- Witness for C6: a two-site fleet with one qualifying HTTPS site
(certificate 3 days from expiry), run for 2 cycles: one alert per
cycle, two in total. -/
theorem c6_ssl_alert_every_cycle_witness :
    sslAlertCount (runCycle ⟨none, none⟩
        (fun i => if i = 1 then
          ⟨SslOutcome.cert 3 "2026-03-01", HttpOutcome.response 200 "ok", 1, true, 0,
           "t", "t", none⟩
         else
          ⟨SslOutcome.fault "e", HttpOutcome.response 200 "ok", 1, true, 0,
           "t", "t", none⟩)
        true ⟨[⟨1, "https://a.b", 60, none, 1⟩, ⟨2, "http://c.d", 60, none, 1⟩], []⟩).2 =
      ((enabledRows ⟨[⟨1, "https://a.b", 60, none, 1⟩, ⟨2, "http://c.d", 60, none, 1⟩],
          []⟩).filter (fun r => sslQualifies ((fun i => if i = 1 then
            (⟨SslOutcome.cert 3 "2026-03-01", HttpOutcome.response 200 "ok", 1, true, 0,
              "t", "t", none⟩ : ProbeEnv)
           else
            ⟨SslOutcome.fault "e", HttpOutcome.response 200 "ok", 1, true, 0,
             "t", "t", none⟩) r.id) r.url)).length ∧
    sslAlertCount (runLoop ⟨none, none⟩
        (fun i => if i = 1 then
          ⟨SslOutcome.cert 3 "2026-03-01", HttpOutcome.response 200 "ok", 1, true, 0,
           "t", "t", none⟩
         else
          ⟨SslOutcome.fault "e", HttpOutcome.response 200 "ok", 1, true, 0,
           "t", "t", none⟩)
        2 ⟨[⟨1, "https://a.b", 60, none, 1⟩, ⟨2, "http://c.d", 60, none, 1⟩], []⟩).2 =
      2 * ((enabledRows ⟨[⟨1, "https://a.b", 60, none, 1⟩, ⟨2, "http://c.d", 60, none, 1⟩],
          []⟩).filter (fun r => sslQualifies ((fun i => if i = 1 then
            (⟨SslOutcome.cert 3 "2026-03-01", HttpOutcome.response 200 "ok", 1, true, 0,
              "t", "t", none⟩ : ProbeEnv)
           else
            ⟨SslOutcome.fault "e", HttpOutcome.response 200 "ok", 1, true, 0,
             "t", "t", none⟩) r.id) r.url)).length :=
  c6_ssl_alert_every_cycle ⟨none, none⟩
    (fun i => if i = 1 then
      ⟨SslOutcome.cert 3 "2026-03-01", HttpOutcome.response 200 "ok", 1, true, 0,
       "t", "t", none⟩
     else
      ⟨SslOutcome.fault "e", HttpOutcome.response 200 "ok", 1, true, 0,
       "t", "t", none⟩)
    ⟨[⟨1, "https://a.b", 60, none, 1⟩, ⟨2, "http://c.d", 60, none, 1⟩], []⟩ 2
    (by decide)

/-! Healthy-cycle lemmas -/

lemma alertCount_append_cons_sleep (a : List Effect) (n : Nat) (b : List Effect) :
    alertCount (a ++ Effect.sleep n :: b) = alertCount a + alertCount b := by
  rw [show Effect.sleep n :: b = [Effect.sleep n] ++ b from rfl, ← List.append_assoc,
    alertCount_append, alertCount_append]
  simp [alertCount, postCount]

/-- A 200 response containing the expected text classifies as UP with
the measured response time. -/
lemma httpSection_healthy (env : ProbeEnv) (et : Option String) (body : String)
    (hr : env.http = HttpOutcome.response 200 body)
    (hct : ∀ t, et = some t → pyContains body t = true) :
    httpSection env et = (some env.elapsed, 1, 200) := by
  simp only [httpSection, hr]
  cases et with
  | none => simp
  | some t =>
    by_cases hb : t ≠ "" ∧ pyStrip t ≠ ""
    · simp [hb, hct t rfl]
    · simp [hb]

/-- A non-qualifying SSL section raises no alert event. -/
lemma alertCount_sslSection_not_qualifying (cfg : Config) (env : ProbeEnv) (url : String)
    (hq : sslQualifies env url = false) :
    alertCount (sslSection cfg env url).2 = 0 := by
  by_cases hu : pyStartsWith url "https://" = true
  · cases hssl : env.ssl with
    | fault e =>
      rw [sslSection_fault cfg env url e hu hssl]
      simp [alertCount, postCount]
    | cert d fmt =>
      by_cases h7 : d - env.nowDay < 7
      · exfalso
        rw [sslQualifies, hu, hssl] at hq
        simp [h7] at hq
      · rw [sslSection_cert_ok cfg env url d fmt hu hssl h7]
        simp [alertCount, postCount]
  · have hu' : pyStartsWith url "https://" = false := by simpa using hu
    rw [sslSection_not_https cfg env url hu']
    simp [alertCount, postCount]

/-- An UP probe of a non-qualifying site raises no alert event at all. -/
lemma alertCount_check_site_up (cfg : Config) (env : ProbeEnv) (site : SiteRow)
    (res : CheckResult) (h : check_site cfg env site = Except.ok res)
    (hq : sslQualifies env site.url = false)
    (hst : (httpSection env site.expected_text).2.1 = 1) :
    alertCount res.effects = 0 := by
  rcases hdb : env.dbOk with hf | ht
  · rw [check_site_error cfg env site hdb] at h
    cases h
  · rw [check_site_ok cfg env site hdb] at h
    cases h
    show alertCount (_ ++ [Effect.httpGet site.url] ++ [Effect.dbInsert _] ++ _) = 0
    rw [alertCount_append, alertCount_append, alertCount_append,
      alertCount_sslSection_not_qualifying cfg env site.url hq, hst]
    simp [alertCount, postCount, downSection]

/-- One fault-free healthy pass over the fleet appends exactly one UP
record per site, in order, and raises no alert. -/
lemma runSites_healthy (cfg : Config) (envOf : Nat → ProbeEnv) (rows : List SiteRow)
    (db : DB)
    (hdb : ∀ r ∈ rows, (envOf r.id).dbOk = true)
    (hhttp : ∀ r ∈ rows, ∃ body, (envOf r.id).http = HttpOutcome.response 200 body ∧
      (∀ t, r.expected_text = some t → pyContains body t = true))
    (hssl : ∀ r ∈ rows, sslQualifies (envOf r.id) r.url = false) :
    (runSites cfg envOf rows db).1.logs =
      db.logs ++ rows.map (fun r =>
        (⟨r.id, 1, some (envOf r.id).elapsed, (envOf r.id).nowIso⟩ : LogRecord)) ∧
    alertCount (runSites cfg envOf rows db).2.1 = 0 := by
  induction rows generalizing db with
  | nil => simp [runSites, alertCount, postCount]
  | cons r rest ih =>
    have hr := hdb r (by simp)
    obtain ⟨body, hrb, hct⟩ := hhttp r (by simp)
    have hsec : httpSection (envOf r.id) r.expected_text = (some (envOf r.id).elapsed, 1, 200) :=
      httpSection_healthy (envOf r.id) r.expected_text body hrb hct
    have hcs := check_site_ok cfg (envOf r.id) r hr
    rw [hsec] at hcs
    rw [runSites_cons_ok cfg envOf r rest db _ hcs]
    have ihr := ih (appendLogs db [⟨r.id, 1, some (envOf r.id).elapsed, (envOf r.id).nowIso⟩])
      (fun x hx => hdb x (by simp [hx]))
      (fun x hx => hhttp x (by simp [hx]))
      (fun x hx => hssl x (by simp [hx]))
    constructor
    · show (runSites cfg envOf rest _).1.logs = _
      rw [ihr.1]
      simp [appendLogs]
    · show alertCount (_ ++ Effect.sleep 1 :: (runSites cfg envOf rest _).2.1) = 0
      rw [alertCount_append_cons_sleep, ihr.2,
        alertCount_check_site_up cfg (envOf r.id) r _ hcs (hssl r (by simp)) (by rw [hsec])]

/-- Claim C7: every probe attempt with a working persistence layer
appends exactly one ProbeResult record whatever the probe outcome; and
one cycle over an unchanged healthy fleet (every enabled site answers
200 with its expected text present, no certificate under 7 days)
appends exactly one new UP record per enabled site and triggers zero
alert events. -/
theorem c7_one_record_per_probe (cfg : Config) (env : ProbeEnv) (site : SiteRow)
    (envOf : Nat → ProbeEnv) (db : DB)
    (hdb : env.dbOk = true)
    (hdbs : ∀ r ∈ enabledRows db, (envOf r.id).dbOk = true)
    (hhttp : ∀ r ∈ enabledRows db, ∃ body,
      (envOf r.id).http = HttpOutcome.response 200 body ∧
      (∀ t, r.expected_text = some t → pyContains body t = true))
    (hssl : ∀ r ∈ enabledRows db, sslQualifies (envOf r.id) r.url = false) :
    (∃ res, check_site cfg env site = Except.ok res ∧ res.appended.length = 1) ∧
    (runCycle cfg envOf true db).1.logs =
      db.logs ++ (enabledRows db).map (fun r =>
        (⟨r.id, 1, some (envOf r.id).elapsed, (envOf r.id).nowIso⟩ : LogRecord)) ∧
    alertCount (runCycle cfg envOf true db).2 = 0 := by
  have hh := runSites_healthy cfg envOf (enabledRows db) db hdbs hhttp hssl
  refine ⟨⟨_, check_site_ok cfg env site hdb, by simp⟩, ?_, ?_⟩
  · rw [runCycle_fst]
    exact hh.1
  · rw [runCycle_no_fault_effects cfg envOf db hdbs, alertCount_append, hh.2]
    simp [alertCount, postCount]

/-- Witness for C7: a concrete healthy two-site fleet (one HTTPS site
with a certificate 30 days out, one plain site with its expected text
present), plus one concrete probe with a network fault that still
appends exactly one record. -/
theorem c7_one_record_per_probe_witness :
    (∃ res, check_site ⟨none, none⟩
        ⟨SslOutcome.fault "e", HttpOutcome.fault, 1, true, 0, "t", "t", none⟩
        ⟨9, "http://x.y", 60, none⟩ = Except.ok res ∧ res.appended.length = 1) ∧
    (runCycle ⟨none, none⟩
        (fun i => if i = 1 then
          ⟨SslOutcome.cert 30 "2026-03-01", HttpOutcome.response 200 "ok", 1, true, 0,
           "t", "t", none⟩
         else
          ⟨SslOutcome.fault "e", HttpOutcome.response 200 "hello Welcome page", 2, true, 0,
           "t", "t", none⟩)
        true ⟨[⟨1, "https://a.b", 60, none, 1⟩, ⟨2, "http://c.d", 60, some "Welcome", 1⟩],
          []⟩).1.logs =
      [] ++ (enabledRows ⟨[⟨1, "https://a.b", 60, none, 1⟩,
          ⟨2, "http://c.d", 60, some "Welcome", 1⟩], []⟩).map (fun r =>
        (⟨r.id, 1, some (((fun i => if i = 1 then
            (⟨SslOutcome.cert 30 "2026-03-01", HttpOutcome.response 200 "ok", 1, true, 0,
              "t", "t", none⟩ : ProbeEnv)
           else
            ⟨SslOutcome.fault "e", HttpOutcome.response 200 "hello Welcome page", 2, true, 0,
             "t", "t", none⟩) r.id)).elapsed,
          ((fun i => if i = 1 then
            (⟨SslOutcome.cert 30 "2026-03-01", HttpOutcome.response 200 "ok", 1, true, 0,
              "t", "t", none⟩ : ProbeEnv)
           else
            ⟨SslOutcome.fault "e", HttpOutcome.response 200 "hello Welcome page", 2, true, 0,
             "t", "t", none⟩) r.id).nowIso⟩ : LogRecord)) ∧
    alertCount (runCycle ⟨none, none⟩
        (fun i => if i = 1 then
          ⟨SslOutcome.cert 30 "2026-03-01", HttpOutcome.response 200 "ok", 1, true, 0,
           "t", "t", none⟩
         else
          ⟨SslOutcome.fault "e", HttpOutcome.response 200 "hello Welcome page", 2, true, 0,
           "t", "t", none⟩)
        true ⟨[⟨1, "https://a.b", 60, none, 1⟩, ⟨2, "http://c.d", 60, some "Welcome", 1⟩],
          []⟩).2 = 0 :=
  c7_one_record_per_probe ⟨none, none⟩
    ⟨SslOutcome.fault "e", HttpOutcome.fault, 1, true, 0, "t", "t", none⟩
    ⟨9, "http://x.y", 60, none⟩
    (fun i => if i = 1 then
      ⟨SslOutcome.cert 30 "2026-03-01", HttpOutcome.response 200 "ok", 1, true, 0,
       "t", "t", none⟩
     else
      ⟨SslOutcome.fault "e", HttpOutcome.response 200 "hello Welcome page", 2, true, 0,
       "t", "t", none⟩)
    ⟨[⟨1, "https://a.b", 60, none, 1⟩, ⟨2, "http://c.d", 60, some "Welcome", 1⟩], []⟩
    rfl (by decide)
    (by
      intro r hr
      rw [show enabledRows ⟨[⟨1, "https://a.b", 60, none, 1⟩,
          ⟨2, "http://c.d", 60, some "Welcome", 1⟩], []⟩ =
        [⟨1, "https://a.b", 60, none⟩, ⟨2, "http://c.d", 60, some "Welcome"⟩] from by decide] at hr
      rcases List.mem_cons.mp hr with h | h
      · subst h
        exact ⟨"ok", by decide, by intro t ht; cases ht⟩
      · rcases List.mem_cons.mp h with h2 | h2
        · subst h2
          refine ⟨"hello Welcome page", by decide, ?_⟩
          intro t ht
          cases ht
          decide
        · cases h2)
    (by decide)

/-! Interval independence -/

/-- Rewrites every site's configured `check_interval` (leaving id, url,
expected text and enabled flag unchanged). -/
def setIntervals (f : Nat → Nat) (db : DB) : DB :=
  ⟨db.sites.map (fun s => ⟨s.id, s.url, f s.id, s.expected_text, s.enabled⟩), db.logs⟩

/-- The corresponding rewrite on a fetched row. -/
def reinterval (f : Nat → Nat) (r : SiteRow) : SiteRow :=
  ⟨r.id, r.url, f r.id, r.expected_text⟩

lemma enabledRows_setIntervals (f : Nat → Nat) (db : DB) :
    enabledRows (setIntervals f db) = (enabledRows db).map (reinterval f) := by
  rcases db with ⟨sites, logs⟩
  show ((sites.map _).filter _).map _ = ((sites.filter _).map _).map _
  induction sites with
  | nil => rfl
  | cons s rest ih =>
    by_cases h : s.enabled = 1 <;>
      simp [List.filter_cons, h, ih, reinterval]

lemma probeSchedule_append (a b : List Effect) :
    probeSchedule (a ++ b) = probeSchedule a ++ probeSchedule b := by
  simp [probeSchedule, List.filter_append]

lemma probeSchedule_cons_sleep (n : Nat) (l : List Effect) :
    probeSchedule (Effect.sleep n :: l) = Effect.sleep n :: probeSchedule l := by
  simp [probeSchedule, List.filter_cons]

lemma probeSchedule_sendLog (ps : Option Nat) : probeSchedule (sendLog ps) = [] := by
  obtain ⟨m, hm⟩ := sendLog_eq ps
  simp [hm, probeSchedule]

lemma probeSchedule_send_telegram (cfg : Config) (ps : Option Nat) (m : String) :
    probeSchedule (send_telegram cfg ps m) = [] := by
  simp [send_telegram, probeSchedule, List.filter_cons]
  simpa [probeSchedule] using probeSchedule_sendLog ps

lemma probeSchedule_downSection (cfg : Config) (env : ProbeEnv) (site : SiteRow)
    (info : Option String) (rt : Option Nat) (st sc : Nat) :
    probeSchedule (downSection cfg env site info rt st sc) = [] := by
  unfold downSection
  split
  · split
    · exact probeSchedule_send_telegram _ _ _
    · simp [probeSchedule]
  · simp [probeSchedule]

/-- The probe/pause skeleton of one `check_site` run is the SSL
section's skeleton followed by the HTTP GET; alert payloads and the
persistence write are filtered out. -/
lemma probeSchedule_check_site_ok (cfg : Config) (env : ProbeEnv) (site : SiteRow)
    (res : CheckResult) (h : check_site cfg env site = Except.ok res) :
    probeSchedule res.effects =
      probeSchedule (sslSection cfg env site.url).2 ++ [Effect.httpGet site.url] := by
  rcases hdb : env.dbOk with hf | ht
  · rw [check_site_error cfg env site hdb] at h
    cases h
  · rw [check_site_ok cfg env site hdb] at h
    cases h
    show probeSchedule (_ ++ [Effect.httpGet site.url] ++ [Effect.dbInsert _] ++ _) = _
    rw [probeSchedule_append, probeSchedule_append, probeSchedule_append,
      probeSchedule_downSection]
    simp [probeSchedule]

lemma probeSchedule_block (effs1 effs2 rest1 rest2 : List Effect) (n : Nat)
    (h1 : probeSchedule effs1 = probeSchedule effs2)
    (h2 : probeSchedule rest1 = probeSchedule rest2) :
    probeSchedule (effs1 ++ Effect.sleep n :: rest1) =
      probeSchedule (effs2 ++ Effect.sleep n :: rest2) := by
  rw [probeSchedule_append, probeSchedule_append, probeSchedule_cons_sleep,
    probeSchedule_cons_sleep, h1, h2]

/-- Changing every site's configured interval changes neither the
probe/pause skeleton of a fleet pass nor whether a fault escapes it. -/
lemma runSites_reinterval (cfg : Config) (envOf : Nat → ProbeEnv) (f : Nat → Nat)
    (rows : List SiteRow) (db db' : DB) :
    probeSchedule (runSites cfg envOf (rows.map (reinterval f)) db').2.1 =
      probeSchedule (runSites cfg envOf rows db).2.1 ∧
    (runSites cfg envOf (rows.map (reinterval f)) db').2.2 =
      (runSites cfg envOf rows db).2.2 := by
  induction rows generalizing db db' with
  | nil => exact ⟨rfl, rfl⟩
  | cons r rest ih =>
    rcases hdb : (envOf r.id).dbOk with hf | ht
    · have he1 := check_site_error cfg (envOf r.id) (reinterval f r) hdb
      have he2 := check_site_error cfg (envOf r.id) r hdb
      rw [List.map_cons,
        runSites_cons_error cfg envOf (reinterval f r) (rest.map (reinterval f)) db' _ he1,
        runSites_cons_error cfg envOf r rest db _ he2]
      exact ⟨rfl, rfl⟩
    · have ho1 := check_site_ok cfg (envOf r.id) (reinterval f r) hdb
      have ho2 := check_site_ok cfg (envOf r.id) r hdb
      rw [List.map_cons,
        runSites_cons_ok cfg envOf (reinterval f r) (rest.map (reinterval f)) db' _ ho1,
        runSites_cons_ok cfg envOf r rest db _ ho2]
      have ihr := ih (appendLogs db [⟨r.id, (httpSection (envOf r.id) r.expected_text).2.1,
          (httpSection (envOf r.id) r.expected_text).1, (envOf r.id).nowIso⟩])
        (appendLogs db' [⟨r.id, (httpSection (envOf r.id) r.expected_text).2.1,
          (httpSection (envOf r.id) r.expected_text).1, (envOf r.id).nowIso⟩])
      refine ⟨?_, ihr.2⟩
      exact probeSchedule_block _ _ _ _ 1
        (by
          rw [probeSchedule_check_site_ok cfg (envOf r.id) (reinterval f r) _ ho1,
            probeSchedule_check_site_ok cfg (envOf r.id) r _ ho2]
          rfl)
        ihr.1

lemma runCycle_effects_eq (cfg : Config) (envOf : Nat → ProbeEnv) (db : DB) :
    (runCycle cfg envOf true db).2 =
      (runSites cfg envOf (enabledRows db) db).2.1 ++
        (if (runSites cfg envOf (enabledRows db) db).2.2 then
          [Effect.logLocal cycleErrMsg, Effect.sleep 10] else [Effect.sleep 10]) := by
  unfold runCycle
  rw [if_pos rfl]
  by_cases h : (runSites cfg envOf (enabledRows db) db).2.2 = true <;> simp [h]

lemma probeSchedule_runCycle (cfg : Config) (envOf : Nat → ProbeEnv) (db : DB) :
    probeSchedule (runCycle cfg envOf true db).2 =
      probeSchedule (runSites cfg envOf (enabledRows db) db).2.1 ++ [Effect.sleep 10] := by
  rw [runCycle_effects_eq, probeSchedule_append]
  by_cases h : (runSites cfg envOf (enabledRows db) db).2.2 = true <;>
    simp [h, probeSchedule, List.filter_cons]

lemma probedUrls_cons_sleep (n : Nat) (l : List Effect) :
    probedUrls (Effect.sleep n :: l) = probedUrls l := by
  simp [probedUrls]

/-- In a fault-free pass each row is probed exactly once, in order. -/
lemma probedUrls_runSites (cfg : Config) (envOf : Nat → ProbeEnv) (rows : List SiteRow)
    (db : DB) (hok : ∀ r ∈ rows, (envOf r.id).dbOk = true) :
    probedUrls (runSites cfg envOf rows db).2.1 = rows.map SiteRow.url := by
  induction rows generalizing db with
  | nil => rfl
  | cons r rest ih =>
    have hr := hok r (by simp)
    have hcs := check_site_ok cfg (envOf r.id) r hr
    rw [runSites_cons_ok cfg envOf r rest db _ hcs]
    show probedUrls (_ ++ Effect.sleep 1 :: _) = _
    rw [probedUrls_append, probedUrls_cons_sleep,
      probedUrls_check_site_ok cfg (envOf r.id) r _ hcs,
      ih _ (fun x hx => hok x (by simp [hx]))]
    rfl

lemma sleepSeconds_append (a b : List Effect) :
    sleepSeconds (a ++ b) = sleepSeconds a ++ sleepSeconds b := by
  simp [sleepSeconds]

lemma sleepSeconds_sendLog (ps : Option Nat) : sleepSeconds (sendLog ps) = [] := by
  obtain ⟨m, hm⟩ := sendLog_eq ps
  simp [hm, sleepSeconds]

lemma sleepSeconds_send_telegram (cfg : Config) (ps : Option Nat) (m : String) :
    sleepSeconds (send_telegram cfg ps m) = [] := by
  simp [send_telegram, sleepSeconds]
  simpa [sleepSeconds] using sleepSeconds_sendLog ps

lemma sleepSeconds_sslSection (cfg : Config) (env : ProbeEnv) (url : String) :
    sleepSeconds (sslSection cfg env url).2 = [] := by
  unfold sslSection
  split
  · cases h : env.ssl with
    | fault e => simp [check_ssl_expiry, h, sleepSeconds]
    | cert d fmt =>
      simp only [check_ssl_expiry, h]
      split
      · rw [sleepSeconds_append, sleepSeconds_send_telegram]
        simp [sleepSeconds]
      · simp [sleepSeconds]
  · simp [sleepSeconds]

lemma sleepSeconds_downSection (cfg : Config) (env : ProbeEnv) (site : SiteRow)
    (info : Option String) (rt : Option Nat) (st sc : Nat) :
    sleepSeconds (downSection cfg env site info rt st sc) = [] := by
  unfold downSection
  split
  · split
    · exact sleepSeconds_send_telegram _ _ _
    · simp [sleepSeconds]
  · simp [sleepSeconds]

lemma sleepSeconds_check_site_ok (cfg : Config) (env : ProbeEnv) (site : SiteRow)
    (res : CheckResult) (h : check_site cfg env site = Except.ok res) :
    sleepSeconds res.effects = [] := by
  rcases hdb : env.dbOk with hf | ht
  · rw [check_site_error cfg env site hdb] at h
    cases h
  · rw [check_site_ok cfg env site hdb] at h
    cases h
    show sleepSeconds (_ ++ [Effect.httpGet site.url] ++ [Effect.dbInsert _] ++ _) = []
    rw [sleepSeconds_append, sleepSeconds_append, sleepSeconds_append,
      sleepSeconds_sslSection, sleepSeconds_downSection]
    simp [sleepSeconds]

/-- In a fault-free pass the pauses are exactly one 1-second sleep per
row. -/
lemma sleepSeconds_runSites (cfg : Config) (envOf : Nat → ProbeEnv) (rows : List SiteRow)
    (db : DB) (hok : ∀ r ∈ rows, (envOf r.id).dbOk = true) :
    sleepSeconds (runSites cfg envOf rows db).2.1 = List.replicate rows.length 1 := by
  induction rows generalizing db with
  | nil => rfl
  | cons r rest ih =>
    have hr := hok r (by simp)
    have hcs := check_site_ok cfg (envOf r.id) r hr
    rw [runSites_cons_ok cfg envOf r rest db _ hcs]
    show sleepSeconds (_ ++ Effect.sleep 1 :: _) = _
    rw [sleepSeconds_append, sleepSeconds_check_site_ok cfg (envOf r.id) r _ hcs]
    simp only [List.nil_append, sleepSeconds, List.filterMap_cons]
    rw [show (List.filterMap _ (runSites cfg envOf rest (appendLogs db _)).2.1) =
      sleepSeconds (runSites cfg envOf rest (appendLogs db _)).2.1 from rfl]
    rw [ih _ (fun x hx => hok x (by simp [hx]))]
    rfl

/-- Claim C8: the polling loop's behaviour does not depend on any
site's configured `check_interval`: rewriting every interval leaves the
probe/pause skeleton of a cycle unchanged, and in a fault-free cycle
every enabled site is probed exactly once per cycle with a fixed
1-second pause between sites and a 10-second pause ending the cycle. -/
theorem c8_interval_not_used (cfg : Config) (envOf : Nat → ProbeEnv) (db : DB)
    (f : Nat → Nat) :
    probeSchedule (runCycle cfg envOf true (setIntervals f db)).2 =
      probeSchedule (runCycle cfg envOf true db).2 ∧
    ((∀ r ∈ enabledRows db, (envOf r.id).dbOk = true) →
      probedUrls (runCycle cfg envOf true db).2 = (enabledRows db).map SiteRow.url ∧
      sleepSeconds (runCycle cfg envOf true db).2 =
        List.replicate (enabledRows db).length 1 ++ [10]) := by
  constructor
  · rw [probeSchedule_runCycle, probeSchedule_runCycle, enabledRows_setIntervals]
    rw [(runSites_reinterval cfg envOf f (enabledRows db) db (setIntervals f db)).1]
  · intro hok
    constructor
    · rw [runCycle_no_fault_effects cfg envOf db hok, probedUrls_append,
        probedUrls_runSites cfg envOf _ db hok]
      simp [probedUrls]
    · rw [runCycle_no_fault_effects cfg envOf db hok, sleepSeconds_append,
        sleepSeconds_runSites cfg envOf _ db hok]
      rfl

/-- Witness for C8: the healthy two-site fleet with all intervals
rewritten to 5 seconds; the skeleton is unchanged and the cycle probes
both sites with the fixed pauses. -/
theorem c8_interval_not_used_witness :
    probeSchedule (runCycle ⟨none, none⟩
        (fun i => if i = 1 then
          ⟨SslOutcome.cert 30 "2026-03-01", HttpOutcome.response 200 "ok", 1, true, 0,
           "t", "t", none⟩
         else
          ⟨SslOutcome.fault "e", HttpOutcome.response 200 "ok", 2, true, 0,
           "t", "t", none⟩)
        true (setIntervals (fun _ => 5)
          ⟨[⟨1, "https://a.b", 60, none, 1⟩, ⟨2, "http://c.d", 60, none, 1⟩], []⟩)).2 =
      probeSchedule (runCycle ⟨none, none⟩
        (fun i => if i = 1 then
          ⟨SslOutcome.cert 30 "2026-03-01", HttpOutcome.response 200 "ok", 1, true, 0,
           "t", "t", none⟩
         else
          ⟨SslOutcome.fault "e", HttpOutcome.response 200 "ok", 2, true, 0,
           "t", "t", none⟩)
        true ⟨[⟨1, "https://a.b", 60, none, 1⟩, ⟨2, "http://c.d", 60, none, 1⟩], []⟩).2 ∧
    probedUrls (runCycle ⟨none, none⟩
        (fun i => if i = 1 then
          ⟨SslOutcome.cert 30 "2026-03-01", HttpOutcome.response 200 "ok", 1, true, 0,
           "t", "t", none⟩
         else
          ⟨SslOutcome.fault "e", HttpOutcome.response 200 "ok", 2, true, 0,
           "t", "t", none⟩)
        true ⟨[⟨1, "https://a.b", 60, none, 1⟩, ⟨2, "http://c.d", 60, none, 1⟩], []⟩).2 =
      (enabledRows ⟨[⟨1, "https://a.b", 60, none, 1⟩,
        ⟨2, "http://c.d", 60, none, 1⟩], []⟩).map SiteRow.url ∧
    sleepSeconds (runCycle ⟨none, none⟩
        (fun i => if i = 1 then
          ⟨SslOutcome.cert 30 "2026-03-01", HttpOutcome.response 200 "ok", 1, true, 0,
           "t", "t", none⟩
         else
          ⟨SslOutcome.fault "e", HttpOutcome.response 200 "ok", 2, true, 0,
           "t", "t", none⟩)
        true ⟨[⟨1, "https://a.b", 60, none, 1⟩, ⟨2, "http://c.d", 60, none, 1⟩], []⟩).2 =
      List.replicate (enabledRows ⟨[⟨1, "https://a.b", 60, none, 1⟩,
        ⟨2, "http://c.d", 60, none, 1⟩], []⟩).length 1 ++ [10] := by
  obtain ⟨h1, h2⟩ := c8_interval_not_used ⟨none, none⟩
    (fun i => if i = 1 then
      ⟨SslOutcome.cert 30 "2026-03-01", HttpOutcome.response 200 "ok", 1, true, 0,
       "t", "t", none⟩
     else
      ⟨SslOutcome.fault "e", HttpOutcome.response 200 "ok", 2, true, 0,
       "t", "t", none⟩)
    ⟨[⟨1, "https://a.b", 60, none, 1⟩, ⟨2, "http://c.d", 60, none, 1⟩], []⟩
    (fun _ => 5)
  obtain ⟨h3, h4⟩ := h2 (by decide)
  exact ⟨h1, h3, h4⟩

/-! Registry operations: disable vs delete -/

/-- Toggling a site that is currently enabled rewrites its rows with
`enabled = 0` and touches nothing else. -/
lemma toggle_sites_eq (db : DB) (i : Nat) (s : Site)
    (hfind : db.sites.find? (fun t => t.id = i) = some s)
    (henabled : s.enabled ≠ 0) :
    (toggle db i).sites = db.sites.map (fun t => if t.id = i then
      (⟨t.id, t.url, t.check_interval, t.expected_text, 0⟩ : Site) else t) := by
  simp [toggle, hfind, henabled]

/-- After toggling an enabled site off, every `sites` row with that id
carries `enabled = 0`. -/
lemma toggle_disables (db : DB) (i : Nat) (s : Site)
    (hfind : db.sites.find? (fun t => t.id = i) = some s)
    (henabled : s.enabled ≠ 0) :
    ∀ t ∈ (toggle db i).sites, t.id = i → t.enabled = 0 := by
  intro t ht hid
  rw [toggle_sites_eq db i s hfind henabled] at ht
  rw [List.mem_map] at ht
  obtain ⟨u, hu, hut⟩ := ht
  by_cases hui : u.id = i
  · rw [if_pos hui] at hut
    rw [← hut]
  · rw [if_neg hui] at hut
    rw [← hut] at hid
    exact absurd hid hui

/-- Claim C9: toggling an enabled site off leaves the whole log table
(and in particular that site's records) unchanged and queryable,
removes the site from the probe set of every subsequent cycle, and only
the explicit delete removes the site together with its log records. -/
theorem c9_disable_keeps_history (db : DB) (i : Nat) (s : Site)
    (hfind : db.sites.find? (fun t => t.id = i) = some s)
    (henabled : s.enabled ≠ 0) :
    (toggle db i).logs = db.logs ∧
    logsFor (toggle db i) i = logsFor db i ∧
    (∀ cfg envOf n,
      i ∉ (enabledRows (runLoop cfg envOf n (toggle db i)).1).map SiteRow.id) ∧
    (delete db i).sites.find? (fun t => t.id = i) = none ∧
    logsFor (delete db i) i = [] := by
  have hlogs : (toggle db i).logs = db.logs := by
    unfold toggle
    rw [hfind]
  refine ⟨hlogs, ?_, ?_, ?_, ?_⟩
  · show (toggle db i).logs.filter _ = db.logs.filter _
    rw [hlogs]
  · intro cfg envOf n
    rw [enabledRows_congr (runLoop cfg envOf n (toggle db i)).1 (toggle db i)
      (runLoop_sites cfg envOf n (toggle db i))]
    intro hmem
    rw [List.mem_map] at hmem
    obtain ⟨r, hr, hid⟩ := hmem
    unfold enabledRows at hr
    rw [List.mem_map] at hr
    obtain ⟨t, ht, hrt⟩ := hr
    rw [List.mem_filter] at ht
    have hten : t.enabled = 1 := by simpa using ht.2
    have htid : t.id = i := by
      rw [← hrt] at hid
      exact hid
    have := toggle_disables db i s hfind henabled t ht.1 htid
    rw [this] at hten
    cases hten
  · rw [List.find?_eq_none]
    intro x hx
    simp only [delete, List.mem_filter] at hx
    simpa using hx.2
  · show ((delete db i).logs).filter _ = []
    rw [List.filter_eq_nil_iff]
    intro a ha
    simp only [delete, List.mem_filter] at ha
    simpa using ha.2

/-- Witness for C9: a one-site registry with one historical record. -/
theorem c9_disable_keeps_history_witness :
    (toggle ⟨[⟨1, "http://a", 60, none, 1⟩], [⟨1, 1, some 2, "t1"⟩]⟩ 1).logs =
      [⟨1, 1, some 2, "t1"⟩] ∧
    logsFor (toggle ⟨[⟨1, "http://a", 60, none, 1⟩], [⟨1, 1, some 2, "t1"⟩]⟩ 1) 1 =
      logsFor ⟨[⟨1, "http://a", 60, none, 1⟩], [⟨1, 1, some 2, "t1"⟩]⟩ 1 ∧
    (∀ cfg envOf n, 1 ∉ (enabledRows (runLoop cfg envOf n
      (toggle ⟨[⟨1, "http://a", 60, none, 1⟩],
        [⟨1, 1, some 2, "t1"⟩]⟩ 1)).1).map SiteRow.id) ∧
    (delete ⟨[⟨1, "http://a", 60, none, 1⟩],
      [⟨1, 1, some 2, "t1"⟩]⟩ 1).sites.find? (fun t => t.id = 1) = none ∧
    logsFor (delete ⟨[⟨1, "http://a", 60, none, 1⟩], [⟨1, 1, some 2, "t1"⟩]⟩ 1) 1 = [] :=
  c9_disable_keeps_history ⟨[⟨1, "http://a", 60, none, 1⟩], [⟨1, 1, some 2, "t1"⟩]⟩ 1
    ⟨1, "http://a", 60, none, 1⟩ (by decide) (by decide)

/-! TLS inspection target -/

/-- TLS connection attempts of a trace, in order. -/
def tlsConnects (effs : List Effect) : List (String × Nat) :=
  effs.filterMap (fun e => match e with
    | Effect.tlsConnect h p => some (h, p)
    | _ => none)

lemma tlsConnects_append (a b : List Effect) :
    tlsConnects (a ++ b) = tlsConnects a ++ tlsConnects b := by
  simp [tlsConnects]

lemma tlsConnects_send_telegram (cfg : Config) (ps : Option Nat) (m : String) :
    tlsConnects (send_telegram cfg ps m) = [] := by
  obtain ⟨m', hm⟩ := sendLog_eq ps
  simp [send_telegram, hm, tlsConnects]

lemma tlsConnects_downSection (cfg : Config) (env : ProbeEnv) (site : SiteRow)
    (info : Option String) (rt : Option Nat) (st sc : Nat) :
    tlsConnects (downSection cfg env site info rt st sc) = [] := by
  unfold downSection
  split
  · split
    · exact tlsConnects_send_telegram _ _ _
    · simp [tlsConnects]
  · simp [tlsConnects]

/-- For an HTTPS URL the SSL section connects exactly once, to the
extracted hostname on the default port. -/
lemma tlsConnects_sslSection (cfg : Config) (env : ProbeEnv) (url : String)
    (hu : pyStartsWith url "https://" = true) :
    tlsConnects (sslSection cfg env url).2 = [(extract_hostname url, sslDefaultPort)] := by
  cases hssl : env.ssl with
  | fault e =>
    rw [sslSection_fault cfg env url e hu hssl]
    simp [tlsConnects]
  | cert d fmt =>
    by_cases h7 : d - env.nowDay < 7
    · rw [sslSection_cert_warn cfg env url d fmt hu hssl h7]
      rw [tlsConnects_append, tlsConnects_send_telegram]
      simp [tlsConnects]
    · rw [sslSection_cert_ok cfg env url d fmt hu hssl h7]
      simp [tlsConnects]

/-- Claim C10: for every HTTPS site, `check_site` performs exactly one
TLS connection, to `extract_hostname url` (the hostname with any
explicit `:port` suffix stripped) on port 443 — `check_ssl_expiry` is
invoked without a port argument, so a site served on a non-default
HTTPS port still has its certificate checked against 443, as the
concrete example with an explicit `:8443` shows. -/
theorem c10_tls_always_port_443 (cfg : Config) (env : ProbeEnv) (site : SiteRow)
    (hhttps : pyStartsWith site.url "https://" = true)
    (hdb : env.dbOk = true) :
    ∃ res, check_site cfg env site = Except.ok res ∧
      tlsConnects res.effects = [(extract_hostname site.url, sslDefaultPort)] ∧
      sslDefaultPort = 443 ∧
      extract_hostname "https://example.com:8443/path" = "example.com" := by
  refine ⟨_, check_site_ok cfg env site hdb, ?_, rfl, by decide⟩
  show tlsConnects (_ ++ [Effect.httpGet site.url] ++ [Effect.dbInsert _] ++ _) = _
  rw [tlsConnects_append, tlsConnects_append, tlsConnects_append,
    tlsConnects_sslSection cfg env site.url hhttps, tlsConnects_downSection]
  simp [tlsConnects]

/-- Witness for C10: a concrete HTTPS site with an explicit non-default
port in its URL; its certificate is checked at `example.com:443`. -/
theorem c10_tls_always_port_443_witness :
    ∃ res, check_site ⟨none, none⟩
        ⟨SslOutcome.cert 30 "2026-03-01", HttpOutcome.response 200 "ok", 1, true, 0,
         "t", "t", none⟩
        ⟨1, "https://example.com:8443/path", 60, none⟩ = Except.ok res ∧
      tlsConnects res.effects =
        [(extract_hostname "https://example.com:8443/path", sslDefaultPort)] ∧
      sslDefaultPort = 443 ∧
      extract_hostname "https://example.com:8443/path" = "example.com" :=
  c10_tls_always_port_443 ⟨none, none⟩
    ⟨SslOutcome.cert 30 "2026-03-01", HttpOutcome.response 200 "ok", 1, true, 0,
     "t", "t", none⟩
    ⟨1, "https://example.com:8443/path", 60, none⟩ (by decide) rfl

end UptimeMonitor
